import Mathlib

/-!
Verification of the world visibility and lighting subsystem of a BSP renderer.

This file gives a shallow embedding, over exact rationals, of:
  * the spherical-harmonics light-probe system (src/gl_lightprobe.js):
    ray-direction tables, L1 SH encoding, the recursive BSP lightmap/liquid
    sampling, multi-sample probe baking, per-lightstyle decomposition and
    the runtime SH recombination;
  * the lightmap builder R_BuildLightMap and the atlas allocator AllocBlock
    (renderer part file);
  * the PVS visibility walker R_MarkLeaves (renderer part file).

JavaScript numeric idioms are embedded explicitly: Uint32Array stores reduce
modulo 2 ^ 32, Uint8Array stores modulo 2 ^ 8, `x >> n` is ToInt32 followed by
an arithmetic shift, and `x | 0` is ToInt32.  Real-number arithmetic (doubles
in the source) is idealized as exact rational arithmetic.
-/

namespace ThreeQuake

/- Batteries marks the Rat field operations irreducible; restore the default
reducibility inside this file so that concrete rational computations can be
settled by the decide tactic. -/
attribute [local semireducible] Rat.add Rat.mul Rat.sub Rat.inv

/-- A 3-component vector (JS arrays of 3 numbers), idealized over ℚ. -/
abbrev Vec3 : Type := ℚ × ℚ × ℚ

/-- DotProduct from mathlib.js. -/
def DotProduct (a b : Vec3) : ℚ :=
  a.1 * b.1 + a.2.1 * b.2.1 + a.2.2 * b.2.2

/-- Componentwise vector negation, `[ -d[0], -d[1], -d[2] ]` in the source. -/
def vneg (a : Vec3) : Vec3 := (-a.1, -a.2.1, -a.2.2)

/-- Component sum `point + direction * maxDist` used to build ray endpoints. -/
def vmadd (p d : Vec3) (k : ℚ) : Vec3 :=
  (p.1 + d.1 * k, p.2.1 + d.2.1 * k, p.2.2 + d.2.2 * k)

/-- An RGB color triple, idealized over ℚ. -/
abbrev Color : Type := ℚ × ℚ × ℚ

/-- JS ToInt32 on an integral value: wrap into [-2^31, 2^31). -/
def toInt32 (x : ℤ) : ℤ := (x + 2 ^ 31) % 2 ^ 32 - 2 ^ 31

/-- JS `x >> n` on an integral value: ToInt32 then arithmetic shift right
(floor division by 2 ^ n). -/
def jsShr (x : ℤ) (n : ℕ) : ℤ := Int.fdiv (toInt32 x) (2 ^ n)

/-- JS truncation toward zero (ToInt32 without the wrap, for small values). -/
def jsTrunc (q : ℚ) : ℤ := if 0 ≤ q then ⌊q⌋ else -⌊-q⌋

-- ============================================================================
-- gl_lightprobe.js: constants
-- ============================================================================

/-- SH_C0 = 0.282095, the Y_00 basis constant (ambient). -/
def SH_C0 : ℚ := 282095 / 1000000

/-- SH_C1 = 0.488603, the Y_1x basis constant (directional). -/
def SH_C1 : ℚ := 488603 / 1000000

/-- The liquid classification returned by GetLiquidType. -/
inductive LiquidType where
  | lava
  | slime
  | water
  | teleport
deriving DecidableEq

/-- LIQUID_COLORS: normalized emissive RGB for each liquid type. -/
def LIQUID_COLORS : LiquidType → Color
  | .lava => (1, 4/10, 1/10)
  | .slime => (2/10, 9/10, 3/10)
  | .water => (3/10, 5/10, 8/10)
  | .teleport => (8/10, 4/10, 1)

/-- LIQUID_EMISSION_INTENSITY = 0.6. -/
def LIQUID_EMISSION_INTENSITY : ℚ := 6 / 10

/-- Surface flag SURF_DRAWTURB = 0x10. -/
def SURF_DRAWTURB : ℕ := 0x10

/-- Surface flag SURF_DRAWTILED = 0x20. -/
def SURF_DRAWTILED : ℕ := 0x20

/-- MAXLIGHTMAPS = 4 (per-surface lightstyle slots, glquake.js). -/
def MAXLIGHTMAPS : ℕ := 4

/-- Modelled from the spec: leaf-contents constants from the missing
bspfile.js (standard BSP values; part_004 confirms CONTENTS_SOLID = -2). -/
def CONTENTS_EMPTY : ℤ := -1

/-- Modelled from the spec: CONTENTS_SOLID from the missing bspfile.js. -/
def CONTENTS_SOLID : ℤ := -2

/-- Modelled from the spec: CONTENTS_WATER from the missing bspfile.js. -/
def CONTENTS_WATER : ℤ := -3

/-- Modelled from the spec: CONTENTS_SLIME from the missing bspfile.js. -/
def CONTENTS_SLIME : ℤ := -4

/-- Modelled from the spec: CONTENTS_LAVA from the missing bspfile.js. -/
def CONTENTS_LAVA : ℤ := -5

-- ============================================================================
-- gl_lightprobe.js: ray direction tables
-- ============================================================================

/-- RAY_DIRECTIONS_LOW: 6 axis-aligned directions. -/
def RAY_DIRECTIONS_LOW : List Vec3 :=
  [ (1, 0, 0), (-1, 0, 0),
    (0, 1, 0), (0, -1, 0),
    (0, 0, 1), (0, 0, -1) ]

/-- RAY_DIRECTIONS_MEDIUM: 6 axes + 8 corners + 12 edge midpoints. -/
def RAY_DIRECTIONS_MEDIUM : List Vec3 :=
  [ (1, 0, 0), (-1, 0, 0),
    (0, 1, 0), (0, -1, 0),
    (0, 0, 1), (0, 0, -1),
    (0.577350, 0.577350, 0.577350), (0.577350, 0.577350, -0.577350),
    (0.577350, -0.577350, 0.577350), (0.577350, -0.577350, -0.577350),
    (-0.577350, 0.577350, 0.577350), (-0.577350, 0.577350, -0.577350),
    (-0.577350, -0.577350, 0.577350), (-0.577350, -0.577350, -0.577350),
    (0.707107, 0.707107, 0), (0.707107, -0.707107, 0),
    (-0.707107, 0.707107, 0), (-0.707107, -0.707107, 0),
    (0.707107, 0, 0.707107), (0.707107, 0, -0.707107),
    (-0.707107, 0, 0.707107), (-0.707107, 0, -0.707107),
    (0, 0.707107, 0.707107), (0, 0.707107, -0.707107),
    (0, -0.707107, 0.707107), (0, -0.707107, -0.707107) ]

/-- The 12 icosahedron vertices of the RAY_DIRECTIONS_HIGH initializer,
normalized.  The source divides (0, ±1, ±phi) permutations by their length
sqrt(1 + phi ^ 2); the normalized components coincide (to the precision the
source itself uses for its other direction constants) with the constants
a = 0.8506508 and b = 0.5257311 that appear verbatim later in the same
initializer, so the rational embedding reuses those decimal literals. -/
def icoVertsNormalized : List Vec3 :=
  [ (0, 0.5257311, 0.8506508), (0, -0.5257311, 0.8506508),
    (0, 0.5257311, -0.8506508), (0, -0.5257311, -0.8506508),
    (0.5257311, 0.8506508, 0), (-0.5257311, 0.8506508, 0),
    (0.5257311, -0.8506508, 0), (-0.5257311, -0.8506508, 0),
    (0.8506508, 0, 0.5257311), (-0.8506508, 0, 0.5257311),
    (0.8506508, 0, -0.5257311), (-0.8506508, 0, -0.5257311) ]

/-- RAY_DIRECTIONS_HIGH: built by the source's initializer as 12 normalized
icosahedron vertices, then 6 axes, 8 cube corners (s = 0.577350), 12 edge
midpoints (e = 0.707107) and 24 additional directions (a = 0.8506508,
b = 0.5257311), in push order. -/
def RAY_DIRECTIONS_HIGH : List Vec3 :=
  icoVertsNormalized ++
  ([ (1, 0, 0), (-1, 0, 0), (0, 1, 0), (0, -1, 0), (0, 0, 1), (0, 0, -1) ] : List Vec3) ++
  ([ (0.577350, 0.577350, 0.577350), (0.577350, 0.577350, -0.577350),
    (0.577350, -0.577350, 0.577350), (0.577350, -0.577350, -0.577350),
    (-0.577350, 0.577350, 0.577350), (-0.577350, 0.577350, -0.577350),
    (-0.577350, -0.577350, 0.577350), (-0.577350, -0.577350, -0.577350) ] : List Vec3) ++
  ([ (0.707107, 0.707107, 0), (0.707107, -0.707107, 0),
    (-0.707107, 0.707107, 0), (-0.707107, -0.707107, 0),
    (0.707107, 0, 0.707107), (0.707107, 0, -0.707107),
    (-0.707107, 0, 0.707107), (-0.707107, 0, -0.707107),
    (0, 0.707107, 0.707107), (0, 0.707107, -0.707107),
    (0, -0.707107, 0.707107), (0, -0.707107, -0.707107) ] : List Vec3) ++
  ([ (0.8506508, 0.5257311, 0), (0.8506508, -0.5257311, 0),
    (-0.8506508, 0.5257311, 0), (-0.8506508, -0.5257311, 0),
    (0.5257311, 0.8506508, 0), (0.5257311, -0.8506508, 0),
    (-0.5257311, 0.8506508, 0), (-0.5257311, -0.8506508, 0),
    (0.8506508, 0, 0.5257311), (0.8506508, 0, -0.5257311),
    (-0.8506508, 0, 0.5257311), (-0.8506508, 0, -0.5257311),
    (0.5257311, 0, 0.8506508), (0.5257311, 0, -0.8506508),
    (-0.5257311, 0, 0.8506508), (-0.5257311, 0, -0.8506508),
    (0, 0.8506508, 0.5257311), (0, 0.8506508, -0.5257311),
    (0, -0.8506508, 0.5257311), (0, -0.8506508, -0.5257311),
    (0, 0.5257311, 0.8506508), (0, 0.5257311, -0.8506508),
    (0, -0.5257311, 0.8506508), (0, -0.5257311, -0.8506508) ] : List Vec3)

/-- GetRayDirections: select the table from the quality cvar value. -/
def GetRayDirections (quality : ℤ) : List Vec3 :=
  if quality ≤ 0 then RAY_DIRECTIONS_LOW
  else if quality = 1 then RAY_DIRECTIONS_MEDIUM
  else RAY_DIRECTIONS_HIGH

-- ============================================================================
-- gl_lightprobe.js: L1 SH encoding
-- ============================================================================

/-- The 12 SH coefficients of a probe, [R0,R1,R2,R3, G0,G1,G2,G3, B0,B1,B2,B3]
(a Float32Array(12) in the source), idealized over ℚ. -/
abbrev SH12 : Type := Fin 12 → ℚ

/-- The 12 per-coefficient increments of SH_AddDirectionalLight for one ray:
entry k is exactly what the source adds to sh[k] for a ray of color (r,g,b)
arriving from direction d (L0 ambient terms at 0/4/8, L1 terms Y at 1/5/9,
Z at 2/6/10, X at 3/7/11). -/
def shRay (d : Vec3) (r g b : ℚ) : SH12 := fun i =>
  match i with
  | 0 => r * SH_C0
  | 1 => r * SH_C1 * d.2.1
  | 2 => r * SH_C1 * d.2.2
  | 3 => r * SH_C1 * d.1
  | 4 => g * SH_C0
  | 5 => g * SH_C1 * d.2.1
  | 6 => g * SH_C1 * d.2.2
  | 7 => g * SH_C1 * d.1
  | 8 => b * SH_C0
  | 9 => b * SH_C1 * d.2.1
  | 10 => b * SH_C1 * d.2.2
  | 11 => b * SH_C1 * d.1

/-- SH_AddDirectionalLight: accumulate one directional contribution into the
12 coefficients (the source performs the 12 `+=` writes in place). -/
def SH_AddDirectionalLight (sh : SH12) (direction : Vec3) (r g b : ℚ) : SH12 :=
  sh + shRay direction r g b

/-- SH_Evaluate: evaluate the L1 SH at a normal, clamping negatives to 0. -/
def SH_Evaluate (sh : SH12) (normal : Vec3) : Color :=
  ( max 0 (sh 0 * SH_C0 + sh 1 * SH_C1 * normal.2.1 + sh 2 * SH_C1 * normal.2.2 + sh 3 * SH_C1 * normal.1),
    max 0 (sh 4 * SH_C0 + sh 5 * SH_C1 * normal.2.1 + sh 6 * SH_C1 * normal.2.2 + sh 7 * SH_C1 * normal.1),
    max 0 (sh 8 * SH_C0 + sh 9 * SH_C1 * normal.2.1 + sh 10 * SH_C1 * normal.2.2 + sh 11 * SH_C1 * normal.1) )

-- ============================================================================
-- gl_lightprobe.js: GetLiquidType
-- ============================================================================

/-- JS String.prototype.indexOf(pat) !== -1, over char lists. -/
def listContainsSub (pat : List Char) : List Char → Bool
  | [] => pat.isEmpty
  | c :: rest => pat.isPrefixOf (c :: rest) || listContainsSub pat rest

/-- JS String.prototype.toLowerCase for one ASCII character. -/
def charLower (c : Char) : Char :=
  if 'A' ≤ c ∧ c ≤ 'Z' then Char.ofNat (c.toNat + 32) else c

/-- JS String.prototype.toLowerCase, over char lists (texture names are
ASCII). -/
def jsToLower (s : List Char) : List Char := s.map charLower

/-- GetLiquidType: classify a texture name; liquid textures start with '*',
and unknown liquid types default to water. -/
def GetLiquidType (textureName : Option String) : Option LiquidType :=
  match textureName with
  | none => none
  | some tn =>
    let name := jsToLower tn.data
    if name.head? ≠ some '*' then none
    else if listContainsSub "lava".data name then some .lava
    else if listContainsSub "slime".data name then some .slime
    else if listContainsSub "water".data name then some .water
    else if listContainsSub "teleport".data name then some .teleport
    else some .water

-- ============================================================================
-- gl_lightprobe.js: BSP data for ray sampling
-- ============================================================================

/-- A splitting plane (normal, dist). -/
structure Plane where
  normal : Vec3
  dist : ℚ
deriving DecidableEq

/-- Texture info of a surface: the two texture-space vectors (with their
fourth offset component) and the owning texture's name (null when absent). -/
structure Texinfo where
  vecs0 : Vec3 × ℚ
  vecs1 : Vec3 × ℚ
  textureName : Option String
deriving DecidableEq

/-- A surface as consumed by the ray sampler: flags, texinfo, lightmap
placement data, the four style slots and the raw light samples. -/
structure Surf where
  flags : ℕ
  texinfo : Option Texinfo
  texturemins0 : ℤ
  texturemins1 : ℤ
  extents0 : ℤ
  extents1 : ℤ
  samples : Option (List ℕ)
  sampleOffset : ℕ
  styles : List ℕ
deriving DecidableEq

/-- A BSP element reached through a node's children pointer: JS null, a leaf
(contents < 0) or an internal node with plane, children and a surface range. -/
inductive BspE where
  | null : BspE
  | leaf (contents : ℤ) : BspE
  | node (plane : Option Plane) (front back : BspE)
      (firstsurface numsurfaces : ℕ) : BspE
deriving DecidableEq

/-- The liquid-volume colors returned when the trace reaches a liquid leaf:
lava and slime at full LIQUID_EMISSION_INTENSITY, water at the 0.3 factor. -/
def leafLiquidColor (contents : ℤ) : Option Color :=
  if contents = CONTENTS_LAVA then
    some ( (LIQUID_COLORS .lava).1 * LIQUID_EMISSION_INTENSITY,
           (LIQUID_COLORS .lava).2.1 * LIQUID_EMISSION_INTENSITY,
           (LIQUID_COLORS .lava).2.2 * LIQUID_EMISSION_INTENSITY )
  else if contents = CONTENTS_SLIME then
    some ( (LIQUID_COLORS .slime).1 * LIQUID_EMISSION_INTENSITY,
           (LIQUID_COLORS .slime).2.1 * LIQUID_EMISSION_INTENSITY,
           (LIQUID_COLORS .slime).2.2 * LIQUID_EMISSION_INTENSITY )
  else if contents = CONTENTS_WATER then
    some ( (LIQUID_COLORS .water).1 * LIQUID_EMISSION_INTENSITY * (3/10),
           (LIQUID_COLORS .water).2.1 * LIQUID_EMISSION_INTENSITY * (3/10),
           (LIQUID_COLORS .water).2.2 * LIQUID_EMISSION_INTENSITY * (3/10) )
  else none

/-- The emission a DRAWTURB surface returns on hit: the liquid color scaled
by LIQUID_EMISSION_INTENSITY, reduced by 0.3 for water. -/
def surfLiquidEmission (lt : LiquidType) : Color :=
  let intensity := if lt = .water
    then LIQUID_EMISSION_INTENSITY * (3/10) else LIQUID_EMISSION_INTENSITY
  ( (LIQUID_COLORS lt).1 * intensity,
    (LIQUID_COLORS lt).2.1 * intensity,
    (LIQUID_COLORS lt).2.2 * intensity )

/-- JS `q >> n` on a (possibly fractional) nonnegative-context double:
ToInt32 truncation followed by the arithmetic shift. -/
def jsShrQ (q : ℚ) (n : ℕ) : ℤ := Int.fdiv (toInt32 (jsTrunc q)) (2 ^ n)

/-- The style-slot accumulation loop of RecursiveLightPointRGB: sum
`lightmap[offset] * d_lightstylevalue[style]` over the active style slots,
the offset advancing by smax * tmax per slot. -/
def styleAccumRGB (styleVals : ℕ → ℤ) (lightmap : List ℕ)
    (activeStyles : List ℕ) (offset step : ℕ) : ℤ :=
  match activeStyles with
  | [] => 0
  | st :: rest =>
    (lightmap.getD offset 0 : ℤ) * styleVals st +
      styleAccumRGB styleVals lightmap rest (offset + step) step

/-- The style-slot scan of RecursiveLightPointForStyle: walk the active style
slots until the target style is found and return `sample / 255` for it
(0 when the target style is not among the slots). -/
def styleFindSample (lightmap : List ℕ) (activeStyles : List ℕ)
    (targetStyle : ℕ) (offset step : ℕ) : ℚ :=
  match activeStyles with
  | [] => 0
  | st :: rest =>
    if st ≠ targetStyle then styleFindSample lightmap rest targetStyle (offset + step) step
    else (lightmap.getD offset 0 : ℚ) / 255

/-- The active style slots of a surface: up to MAXLIGHTMAPS entries, stopping
at the 255 sentinel. -/
def activeStyles (surf : Surf) : List ℕ :=
  (surf.styles.take MAXLIGHTMAPS).takeWhile (fun st => st ≠ 255)

/-- The lightmap-sampling tail of the RecursiveLightPointRGB impact loop:
texel-bounds tests (none = the loop continues past this surface), the
missing-samples fallback [0,0,0], and the grayscale style accumulation
normalized by `(r >> 8) / 255`. -/
def surfSampleRGB (styleVals : ℕ → ℤ) (mid : Vec3) (surf : Surf)
    (tex : Texinfo) : Option Color :=
  let s := DotProduct mid tex.vecs0.1 + tex.vecs0.2
  let t := DotProduct mid tex.vecs1.1 + tex.vecs1.2
  if s < surf.texturemins0 ∨ t < surf.texturemins1 then none
  else
    let ds := s - surf.texturemins0
    let dt := t - surf.texturemins1
    if ds > surf.extents0 ∨ dt > surf.extents1 then none
    else
      match surf.samples with
      | none => some (0, 0, 0)
      | some lightmap =>
        let ds4 := (jsShrQ ds 4).toNat
        let dt4 := (jsShrQ dt 4).toNat
        let smax := (jsShr surf.extents0 4).toNat + 1
        let tmax := (jsShr surf.extents1 4).toNat + 1
        let lightmapOffset := surf.sampleOffset + dt4 * smax + ds4
        let raw := styleAccumRGB styleVals lightmap (activeStyles surf)
          lightmapOffset (smax * tmax)
        let r := (jsShr raw 8 : ℚ) / 255
        some (r, r, r)

/-- The lightmap-sampling tail of the RecursiveLightPointForStyle loop:
identical bounds tests, then the isolated single-style sample. -/
def surfSampleForStyle (mid : Vec3) (surf : Surf) (tex : Texinfo)
    (targetStyle : ℕ) : Option Color :=
  let s := DotProduct mid tex.vecs0.1 + tex.vecs0.2
  let t := DotProduct mid tex.vecs1.1 + tex.vecs1.2
  if s < surf.texturemins0 ∨ t < surf.texturemins1 then none
  else
    let ds := s - surf.texturemins0
    let dt := t - surf.texturemins1
    if ds > surf.extents0 ∨ dt > surf.extents1 then none
    else
      match surf.samples with
      | none => some (0, 0, 0)
      | some lightmap =>
        let ds4 := (jsShrQ ds 4).toNat
        let dt4 := (jsShrQ dt 4).toNat
        let smax := (jsShr surf.extents0 4).toNat + 1
        let tmax := (jsShr surf.extents1 4).toNat + 1
        let lightmapOffset := surf.sampleOffset + dt4 * smax + ds4
        let r := styleFindSample lightmap (activeStyles surf) targetStyle
          lightmapOffset (smax * tmax)
        some (r, r, r)

/-- The per-surface body of the RecursiveLightPointRGB impact loop: none
means the loop continues past this surface, some c means the loop returns c.
A DRAWTURB surface with a recognized liquid texture returns its emission
before any extent test; DRAWTILED surfaces are skipped; otherwise the
lightmap is sampled at the impact texel. -/
def surfImpactRGB (styleVals : ℕ → ℤ) (mid : Vec3) (surf : Surf) : Option Color :=
  match surf.texinfo with
  | none => none
  | some tex =>
    if SURF_DRAWTURB &&& surf.flags ≠ 0 ∧ (GetLiquidType tex.textureName).isSome then
      (GetLiquidType tex.textureName).map surfLiquidEmission
    else if SURF_DRAWTILED &&& surf.flags ≠ 0 then none
    else surfSampleRGB styleVals mid surf tex

/-- The per-surface body of the RecursiveLightPointForStyle impact loop:
liquid emission only while baking style 0, otherwise the isolated
single-style lightmap sample. -/
def surfImpactForStyle (targetStyle : ℕ) (mid : Vec3) (surf : Surf) : Option Color :=
  match surf.texinfo with
  | none => none
  | some tex =>
    if targetStyle = 0 ∧ SURF_DRAWTURB &&& surf.flags ≠ 0 ∧
        (GetLiquidType tex.textureName).isSome then
      (GetLiquidType tex.textureName).map surfLiquidEmission
    else if SURF_DRAWTILED &&& surf.flags ≠ 0 then none
    else surfSampleForStyle mid surf tex targetStyle

/-- The impact loop over a node's surface range (first index, count), with a
per-surface body: null entries are skipped, the first body result is
returned, and none means no surface claimed the impact. -/
def surfLoop (surfaces : List (Option Surf)) (body : Surf → Option Color) :
    ℕ → ℕ → Option Color
  | _, 0 => none
  | idx, n + 1 =>
    match surfaces.getD idx none with
    | none => surfLoop surfaces body (idx + 1) n
    | some surf =>
      match body surf with
      | some c => some c
      | none => surfLoop surfaces body (idx + 1) n

/-- The midpoint `start + (end - start) * frac` of the plane crossing. -/
def rayMid (start stop : Vec3) (frac : ℚ) : Vec3 :=
  ( start.1 + (stop.1 - start.1) * frac,
    start.2.1 + (stop.2.1 - start.2.1) * frac,
    start.2.2 + (stop.2.2 - start.2.2) * frac )

/-- RecursiveLightPointRGB: recursive BSP traversal sampling the RGB
lightmap along a ray, with liquid leaf/surface emission.  The source indexes
`children[side]` with side = 1 when the start point is behind the plane; the
embedding spells the two sides out so the recursion is structural. -/
def RecursiveLightPointRGB (surfaces : List (Option Surf))
    (styleVals : ℕ → ℤ) : BspE → Vec3 → Vec3 → Option Color
  | .null, _, _ => none
  | .leaf contents, _, _ =>
      if contents < 0 then leafLiquidColor contents else none
  | .node plane? f b fs ns, start, stop =>
    match plane? with
    | none => none
    | some plane =>
      let front := DotProduct start plane.normal - plane.dist
      let back := DotProduct stop plane.normal - plane.dist
      let frontNeg : Bool := decide (front < 0)
      let backNeg : Bool := decide (back < 0)
      let frac := front / (front - back)
      let mid := rayMid start stop frac
      if frontNeg then
        if backNeg = frontNeg then
          RecursiveLightPointRGB surfaces styleVals b start stop
        else
          match RecursiveLightPointRGB surfaces styleVals b start mid with
          | some c => some c
          | none =>
            if backNeg = frontNeg then none
            else
              match surfLoop surfaces (surfImpactRGB styleVals mid) fs ns with
              | some c => some c
              | none => RecursiveLightPointRGB surfaces styleVals f mid stop
      else
        if backNeg = frontNeg then
          RecursiveLightPointRGB surfaces styleVals f start stop
        else
          match RecursiveLightPointRGB surfaces styleVals f start mid with
          | some c => some c
          | none =>
            if backNeg = frontNeg then none
            else
              match surfLoop surfaces (surfImpactRGB styleVals mid) fs ns with
              | some c => some c
              | none => RecursiveLightPointRGB surfaces styleVals b mid stop

/-- RecursiveLightPointForStyle: the same traversal restricted to a single
target lightstyle (liquid emission only for style 0), with the two plane
sides spelled out as above. -/
def RecursiveLightPointForStyle (surfaces : List (Option Surf))
    (targetStyle : ℕ) : BspE → Vec3 → Vec3 → Option Color
  | .null, _, _ => none
  | .leaf contents, _, _ =>
      if contents < 0 then
        (if targetStyle = 0 then leafLiquidColor contents else none)
      else none
  | .node plane? f b fs ns, start, stop =>
    match plane? with
    | none => none
    | some plane =>
      let front := DotProduct start plane.normal - plane.dist
      let back := DotProduct stop plane.normal - plane.dist
      let frontNeg : Bool := decide (front < 0)
      let backNeg : Bool := decide (back < 0)
      let frac := front / (front - back)
      let mid := rayMid start stop frac
      if frontNeg then
        if backNeg = frontNeg then
          RecursiveLightPointForStyle surfaces targetStyle b start stop
        else
          match RecursiveLightPointForStyle surfaces targetStyle b start mid with
          | some c => some c
          | none =>
            if backNeg = frontNeg then none
            else
              match surfLoop surfaces (surfImpactForStyle targetStyle mid) fs ns with
              | some c => some c
              | none => RecursiveLightPointForStyle surfaces targetStyle f mid stop
      else
        if backNeg = frontNeg then
          RecursiveLightPointForStyle surfaces targetStyle f start stop
        else
          match RecursiveLightPointForStyle surfaces targetStyle f start mid with
          | some c => some c
          | none =>
            if backNeg = frontNeg then none
            else
              match surfLoop surfaces (surfImpactForStyle targetStyle mid) fs ns with
              | some c => some c
              | none => RecursiveLightPointForStyle surfaces targetStyle b mid stop

-- ============================================================================
-- gl_lightprobe.js: model, samplers and probe baking
-- ============================================================================

/-- The leaf record fields R_BuildLightProbes reads: contents and the
minmaxs bounding box. -/
structure LeafData where
  contents : ℤ
  mins : Vec3
  maxs : Vec3
deriving DecidableEq

/-- The worldmodel fields the light-probe system reads.  `haslightdata`
embeds the `model.lightdata` null check; `root` is `model.nodes[0]`; leafs
are 1-indexed as in the source. -/
structure QModel where
  haslightdata : Bool
  root : BspE
  surfaces : List (Option Surf)
  numsurfaces : ℕ
  numleafs : ℕ
  leafs : ℕ → Option LeafData

/-- R_SampleLightmapRGB: trace a ray of length 4096 from the point and sample
the world's combined RGB lightmap field. -/
def R_SampleLightmapRGB (model : QModel) (styleVals : ℕ → ℤ)
    (point direction : Vec3) : Option Color :=
  if model.haslightdata then
    RecursiveLightPointRGB model.surfaces styleVals model.root point
      (vmadd point direction 4096)
  else none

/-- R_SampleLightmapForStyle: the same trace restricted to one style. -/
def R_SampleLightmapForStyle (model : QModel) (point direction : Vec3)
    (targetStyle : ℕ) : Option Color :=
  if model.haslightdata then
    RecursiveLightPointForStyle model.surfaces targetStyle model.root point
      (vmadd point direction 4096)
  else none

/-- One step of the bake accumulation loops: a hit ray adds its SH
contribution (encoded with the inverted direction) and counts one unit of
weight; a missed ray adds nothing. -/
def bakeStep (sample : Vec3 → Vec3 → Option Color) (acc : SH12 × ℕ)
    (pd : Vec3 × Vec3) : SH12 × ℕ :=
  match sample pd.1 pd.2 with
  | some c => (SH_AddDirectionalLight acc.1 (vneg pd.2) c.1 c.2.1 c.2.2, acc.2 + 1)
  | none => acc

/-- The positions × directions iteration order of the multi-sample bake
loops: positions outer, directions inner. -/
def bakePairs (samplePositions directions : List Vec3) : List (Vec3 × Vec3) :=
  samplePositions.flatMap (fun p => directions.map (fun d => (p, d)))

/-- The accumulation phase shared by BakeProbeMultiSample and
BakeProbeForStyleMultiSample: fold the bake step over every (position,
direction) pair, starting from zero SH and zero weight. -/
def bakeAccum (sample : Vec3 → Vec3 → Option Color)
    (samplePositions directions : List Vec3) : SH12 × ℕ :=
  (bakePairs samplePositions directions).foldl (bakeStep sample) (0, 0)

/-- The normalization phase of the bake loops: divide by the total weight
when it is positive, otherwise leave the (zero) SH untouched. -/
def bakeNormalize (acc : SH12 × ℕ) : SH12 :=
  if 0 < acc.2 then ((acc.2 : ℚ))⁻¹ • acc.1 else acc.1

/-- BakeProbeMultiSample: bake the combined-lighting SH of a probe from
several sample positions, averaging over the hit rays only. -/
def BakeProbeMultiSample (model : QModel) (styleVals : ℕ → ℤ)
    (directions samplePositions : List Vec3) : SH12 :=
  bakeNormalize (bakeAccum (R_SampleLightmapRGB model styleVals)
    samplePositions directions)

/-- BakeProbeForStyleMultiSample: bake the SH of a single isolated style. -/
def BakeProbeForStyleMultiSample (model : QModel) (targetStyle : ℕ)
    (directions samplePositions : List Vec3) : SH12 :=
  bakeNormalize (bakeAccum
    (fun p d => R_SampleLightmapForStyle model p d targetStyle)
    samplePositions directions)

/-- The per-style contribution list R_BuildLightProbes stores on a probe:
for each animated style, its isolated SH bake, kept only when some
coefficient is nonzero. -/
def buildStyleContribs (model : QModel) (directions samplePositions : List Vec3)
    (stylesArray : List ℕ) : List (ℕ × SH12) :=
  stylesArray.filterMap (fun style =>
    let styleSH := BakeProbeForStyleMultiSample model style directions samplePositions
    if styleSH ≠ 0 then some (style, styleSH) else none)

/-- The R_UpdateLightProbes recombination step for one probe: reset the
combined SH to the base SH, then add each stored per-style SH scaled by
`currentStyleValue / 256`. -/
def recombineSH (shBase : SH12) (styleContribs : List (ℕ × SH12))
    (styleVals : ℕ → ℤ) : SH12 :=
  styleContribs.foldl
    (fun sh contrib => sh + ((styleVals contrib.1 : ℚ) / 256) • contrib.2) shBase

/-- Stated from the spec for the hit-only-averaging claim: the SH of a bake
is the sum of the SH contributions of the hit-returning rays divided by the
count of hit-returning rays only (rays whose trace returns no color are
excluded from the averaging denominator entirely); all-zero when no ray
hits. -/
def specHitOnlyAverage (sample : Vec3 → Vec3 → Option Color)
    (samplePositions directions : List Vec3) : SH12 :=
  let hitRays := (bakePairs samplePositions directions).filter
    (fun pd => (sample pd.1 pd.2).isSome)
  let contribs := (bakePairs samplePositions directions).filterMap
    (fun pd => (sample pd.1 pd.2).map
      (fun c => shRay (vneg pd.2) c.1 c.2.1 c.2.2))
  if hitRays.length = 0 then 0
  else ((hitRays.length : ℚ))⁻¹ • contribs.sum

-- ============================================================================
-- Theorems: ray-direction table sizes (C3)
-- ============================================================================

/-- C3: the claim (and the source's own comments) state 6/26/66 ray
directions for the low/medium/high quality tiers.  The low and medium tables
indeed have 6 and 26 directions, but the high table built by the initializer
has 12 + 6 + 8 + 12 + 24 = 62 directions, not 66: GetRayDirections at
quality 2 returns a 62-element list, contradicting the code's comments
("High quality: 66 directions", "2=high (66 rays)"). -/
theorem ray_direction_table_sizes :
    (GetRayDirections 0).length = 6 ∧ (GetRayDirections 1).length = 26 ∧
      (GetRayDirections 2).length = 62 := by
  refine ⟨?_, ?_, ?_⟩ <;> rfl

-- ============================================================================
-- Theorems: bake averaging excludes missed rays (C7)
-- ============================================================================

theorem foldl_bakeStep (sample : Vec3 → Vec3 → Option Color) :
    ∀ (L : List (Vec3 × Vec3)) (i : SH12 × ℕ),
      L.foldl (bakeStep sample) i =
        (i.1 + (L.filterMap (fun pd => (sample pd.1 pd.2).map
            (fun c => shRay (vneg pd.2) c.1 c.2.1 c.2.2))).sum,
         i.2 + (L.filter (fun pd => (sample pd.1 pd.2).isSome)).length)
  | [], i => by simp
  | pd :: L, i => by
      cases h : sample pd.1 pd.2 with
      | none =>
        rw [List.foldl_cons, foldl_bakeStep sample L]
        simp [bakeStep, h]
      | some c =>
        rw [List.foldl_cons, foldl_bakeStep sample L]
        simp [bakeStep, h, SH_AddDirectionalLight]
        constructor
        · exact add_assoc _ _ _
        · omega

theorem filterMap_contrib_nil (sample : Vec3 → Vec3 → Option Color)
    (L : List (Vec3 × Vec3))
    (h : (L.filter (fun pd => (sample pd.1 pd.2).isSome)).length = 0) :
    L.filterMap (fun pd => (sample pd.1 pd.2).map
      (fun c => shRay (vneg pd.2) c.1 c.2.1 c.2.2)) = [] := by
  rw [List.length_eq_zero] at h
  rw [List.filterMap_eq_nil_iff]
  intro pd hpd
  have hmem := List.filter_eq_nil_iff.mp h pd hpd
  cases hs : sample pd.1 pd.2 with
  | none => rfl
  | some c => exact absurd (by simp [hs]) hmem

/-- C7: a bake ray whose recursive trace returns no color contributes
nothing and is excluded from the averaging denominator: the SH produced by
BakeProbeMultiSample equals the sum of the SH contributions of the
hit-returning rays divided by the number of hit-returning rays only (not by
the total number of rays cast), and is zero when no ray hits at all. -/
theorem bake_excludes_missed_rays (model : QModel) (styleVals : ℕ → ℤ)
    (directions samplePositions : List Vec3) :
    BakeProbeMultiSample model styleVals directions samplePositions =
      specHitOnlyAverage (R_SampleLightmapRGB model styleVals)
        samplePositions directions := by
  unfold BakeProbeMultiSample specHitOnlyAverage bakeAccum bakeNormalize
  rw [foldl_bakeStep]
  simp only [zero_add]
  by_cases h : (List.filter
      (fun pd => (R_SampleLightmapRGB model styleVals pd.1 pd.2).isSome)
      (bakePairs samplePositions directions)).length = 0
  · have hnil := filterMap_contrib_nil (R_SampleLightmapRGB model styleVals) _ h
    simp [h, hnil]
  · simp [h, Nat.pos_of_ne_zero h]

-- ============================================================================
-- Theorems: liquid color contract (C6) and unknown-liquid default (C10)
-- ============================================================================

theorem recursive_hit_liquid_surface (surfaces : List (Option Surf))
    (styleVals : ℕ → ℤ) (plane : Plane) (f b : BspE) (fs : ℕ)
    (start stop : Vec3) (surf : Surf) (tex : Texinfo) (lt : LiquidType)
    (hfront : 0 ≤ DotProduct start plane.normal - plane.dist)
    (hback : DotProduct stop plane.normal - plane.dist < 0)
    (hmiss : RecursiveLightPointRGB surfaces styleVals f start
      (rayMid start stop ((DotProduct start plane.normal - plane.dist) /
        ((DotProduct start plane.normal - plane.dist) -
         (DotProduct stop plane.normal - plane.dist)))) = none)
    (hsurf : surfaces.getD fs none = some surf)
    (hturb : SURF_DRAWTURB &&& surf.flags ≠ 0)
    (htex : surf.texinfo = some tex)
    (hliq : GetLiquidType tex.textureName = some lt) :
    RecursiveLightPointRGB surfaces styleVals (.node (some plane) f b fs 1)
      start stop = some (surfLiquidEmission lt) := by
  rw [RecursiveLightPointRGB]
  simp only [not_lt.mpr hfront, hback]
  simp only [decide_True, decide_False, Bool.false_eq_true, if_false,
    Bool.true_eq_false, hmiss]
  simp only [surfLoop, hsurf, surfImpactRGB, htex, hturb, hliq,
    Option.isSome_some, and_true, ne_eq, not_false_iff, if_true,
    Option.map_some]
  simp

/-- C6: a probe-bake ray that terminates in a lava leaf, or that reaches a
crossed node carrying a liquid (DRAWTURB) surface whose texture classifies
as lava, returns (1.0, 0.4, 0.1) scaled by LIQUID_EMISSION_INTENSITY; slime
likewise returns (0.2, 0.9, 0.3) at the full intensity; water returns
(0.3, 0.5, 0.8) scaled by the reduced 0.3 × water factor. -/
theorem liquid_color_contract :
    (∀ (surfaces : List (Option Surf)) (styleVals : ℕ → ℤ) (start stop : Vec3),
      RecursiveLightPointRGB surfaces styleVals (.leaf CONTENTS_LAVA) start stop =
        some ((LIQUID_COLORS .lava).1 * LIQUID_EMISSION_INTENSITY,
              (LIQUID_COLORS .lava).2.1 * LIQUID_EMISSION_INTENSITY,
              (LIQUID_COLORS .lava).2.2 * LIQUID_EMISSION_INTENSITY)) ∧
    (∀ (surfaces : List (Option Surf)) (styleVals : ℕ → ℤ) (start stop : Vec3),
      RecursiveLightPointRGB surfaces styleVals (.leaf CONTENTS_SLIME) start stop =
        some ((LIQUID_COLORS .slime).1 * LIQUID_EMISSION_INTENSITY,
              (LIQUID_COLORS .slime).2.1 * LIQUID_EMISSION_INTENSITY,
              (LIQUID_COLORS .slime).2.2 * LIQUID_EMISSION_INTENSITY)) ∧
    (∀ (surfaces : List (Option Surf)) (styleVals : ℕ → ℤ) (start stop : Vec3),
      RecursiveLightPointRGB surfaces styleVals (.leaf CONTENTS_WATER) start stop =
        some ((LIQUID_COLORS .water).1 * LIQUID_EMISSION_INTENSITY * (3/10),
              (LIQUID_COLORS .water).2.1 * LIQUID_EMISSION_INTENSITY * (3/10),
              (LIQUID_COLORS .water).2.2 * LIQUID_EMISSION_INTENSITY * (3/10))) ∧
    (∀ surfaces styleVals plane f b fs start stop surf tex lt,
      0 ≤ DotProduct start plane.normal - plane.dist →
      DotProduct stop plane.normal - plane.dist < 0 →
      RecursiveLightPointRGB surfaces styleVals f start
        (rayMid start stop ((DotProduct start plane.normal - plane.dist) /
          ((DotProduct start plane.normal - plane.dist) -
           (DotProduct stop plane.normal - plane.dist)))) = none →
      surfaces.getD fs none = some surf →
      SURF_DRAWTURB &&& surf.flags ≠ 0 →
      surf.texinfo = some tex →
      GetLiquidType tex.textureName = some lt →
      RecursiveLightPointRGB surfaces styleVals (.node (some plane) f b fs 1)
          start stop =
        some (if lt = .water then
          ((LIQUID_COLORS lt).1 * (LIQUID_EMISSION_INTENSITY * (3/10)),
           (LIQUID_COLORS lt).2.1 * (LIQUID_EMISSION_INTENSITY * (3/10)),
           (LIQUID_COLORS lt).2.2 * (LIQUID_EMISSION_INTENSITY * (3/10)))
        else
          ((LIQUID_COLORS lt).1 * LIQUID_EMISSION_INTENSITY,
           (LIQUID_COLORS lt).2.1 * LIQUID_EMISSION_INTENSITY,
           (LIQUID_COLORS lt).2.2 * LIQUID_EMISSION_INTENSITY))) := by
  refine ⟨?_, ?_, ?_, ?_⟩
  · intro surfaces styleVals start stop
    rw [RecursiveLightPointRGB]
    norm_num [CONTENTS_LAVA, leafLiquidColor, CONTENTS_SLIME, CONTENTS_WATER]
  · intro surfaces styleVals start stop
    rw [RecursiveLightPointRGB]
    norm_num [CONTENTS_LAVA, leafLiquidColor, CONTENTS_SLIME, CONTENTS_WATER]
  · intro surfaces styleVals start stop
    rw [RecursiveLightPointRGB]
    norm_num [CONTENTS_LAVA, leafLiquidColor, CONTENTS_SLIME, CONTENTS_WATER]
  · intro surfaces styleVals plane f b fs start stop surf tex lt
      hfront hback hmiss hsurf hturb htex hliq
    rw [recursive_hit_liquid_surface surfaces styleVals plane f b fs start
      stop surf tex lt hfront hback hmiss hsurf hturb htex hliq]
    cases lt <;> simp [surfLiquidEmission]

/-- A lava-textured liquid surface used to instantiate the liquid-contract
theorems at concrete inputs. -/
def witSurfLiquid (name : String) : Surf :=
  { flags := 0x10,
    texinfo := some { vecs0 := ((1,0,0), 0), vecs1 := ((0,1,0), 0),
                      textureName := some name },
    texturemins0 := 0, texturemins1 := 0, extents0 := 16, extents1 := 16,
    samples := none, sampleOffset := 0, styles := [0, 255, 255, 255] }

/-- The horizontal plane z = 0 used by the concrete instantiations. -/
def witPlane : Plane := { normal := (0,0,1), dist := 0 }

theorem liquid_color_contract_witness :
    RecursiveLightPointRGB [] (fun _ => 256) (.leaf CONTENTS_LAVA)
        (0,0,1) (0,0,-1) =
      some ((LIQUID_COLORS .lava).1 * LIQUID_EMISSION_INTENSITY,
            (LIQUID_COLORS .lava).2.1 * LIQUID_EMISSION_INTENSITY,
            (LIQUID_COLORS .lava).2.2 * LIQUID_EMISSION_INTENSITY) ∧
    RecursiveLightPointRGB [some (witSurfLiquid "*lava1")] (fun _ => 256)
        (.node (some witPlane) (.leaf (-1)) (.leaf (-2)) 0 1) (0,0,1) (0,0,-1) =
      some ((LIQUID_COLORS .lava).1 * LIQUID_EMISSION_INTENSITY,
            (LIQUID_COLORS .lava).2.1 * LIQUID_EMISSION_INTENSITY,
            (LIQUID_COLORS .lava).2.2 * LIQUID_EMISSION_INTENSITY) ∧
    RecursiveLightPointRGB [some (witSurfLiquid "*water2")] (fun _ => 256)
        (.node (some witPlane) (.leaf (-1)) (.leaf (-2)) 0 1) (0,0,1) (0,0,-1) =
      some ((LIQUID_COLORS .water).1 * (LIQUID_EMISSION_INTENSITY * (3/10)),
            (LIQUID_COLORS .water).2.1 * (LIQUID_EMISSION_INTENSITY * (3/10)),
            (LIQUID_COLORS .water).2.2 * (LIQUID_EMISSION_INTENSITY * (3/10))) := by
  obtain ⟨h1, _, _, h4⟩ := liquid_color_contract
  refine ⟨h1 [] (fun _ => 256) (0,0,1) (0,0,-1), ?_, ?_⟩
  · have := h4 [some (witSurfLiquid "*lava1")] (fun _ => 256) witPlane
      (.leaf (-1)) (.leaf (-2)) 0 (0,0,1) (0,0,-1) (witSurfLiquid "*lava1")
      { vecs0 := ((1,0,0), 0), vecs1 := ((0,1,0), 0),
        textureName := some "*lava1" } .lava
      (by norm_num [DotProduct, witPlane]) (by norm_num [DotProduct, witPlane])
      (by decide) (by decide) (by decide) (by decide) (by decide)
    simpa using this
  · have := h4 [some (witSurfLiquid "*water2")] (fun _ => 256) witPlane
      (.leaf (-1)) (.leaf (-2)) 0 (0,0,1) (0,0,-1) (witSurfLiquid "*water2")
      { vecs0 := ((1,0,0), 0), vecs1 := ((0,1,0), 0),
        textureName := some "*water2" } .water
      (by norm_num [DotProduct, witPlane]) (by norm_num [DotProduct, witPlane])
      (by decide) (by decide) (by decide) (by decide) (by decide)
    simpa using this

/-- C10: a liquid texture name that starts with '*' but contains none of
"lava", "slime", "water", "teleport" (case-insensitively) is classified as
water, and a probe-bake ray hitting a DRAWTURB surface with such a texture
returns the water emission color at the reduced 0.3 × water intensity — it
never yields null or a full-intensity emission. -/
theorem unknown_liquid_is_water (name : String)
    (hstar : (jsToLower name.data).head? = some '*')
    (hlava : listContainsSub "lava".data (jsToLower name.data) = false)
    (hslime : listContainsSub "slime".data (jsToLower name.data) = false)
    (hwater : listContainsSub "water".data (jsToLower name.data) = false)
    (htele : listContainsSub "teleport".data (jsToLower name.data) = false) :
    GetLiquidType (some name) = some .water ∧
    (∀ surfaces styleVals plane f b fs start stop surf tex,
      0 ≤ DotProduct start plane.normal - plane.dist →
      DotProduct stop plane.normal - plane.dist < 0 →
      RecursiveLightPointRGB surfaces styleVals f start
        (rayMid start stop ((DotProduct start plane.normal - plane.dist) /
          ((DotProduct start plane.normal - plane.dist) -
           (DotProduct stop plane.normal - plane.dist)))) = none →
      surfaces.getD fs none = some surf →
      SURF_DRAWTURB &&& surf.flags ≠ 0 →
      surf.texinfo = some tex →
      tex.textureName = some name →
      RecursiveLightPointRGB surfaces styleVals (.node (some plane) f b fs 1)
          start stop =
        some ((LIQUID_COLORS .water).1 * (LIQUID_EMISSION_INTENSITY * (3/10)),
              (LIQUID_COLORS .water).2.1 * (LIQUID_EMISSION_INTENSITY * (3/10)),
              (LIQUID_COLORS .water).2.2 * (LIQUID_EMISSION_INTENSITY * (3/10)))) := by
  have hclass : GetLiquidType (some name) = some .water := by
    simp [GetLiquidType, hstar, hlava, hslime, hwater, htele]
  refine ⟨hclass, ?_⟩
  intro surfaces styleVals plane f b fs start stop surf tex
    hfront hback hmiss hsurf hturb htex hname
  have := recursive_hit_liquid_surface surfaces styleVals plane f b fs start
    stop surf tex .water hfront hback hmiss hsurf hturb htex
    (by rw [hname]; exact hclass)
  simpa [surfLiquidEmission] using this

theorem unknown_liquid_is_water_witness :
    GetLiquidType (some "*acid") = some .water ∧
    RecursiveLightPointRGB [some (witSurfLiquid "*acid")] (fun _ => 256)
        (.node (some witPlane) (.leaf (-1)) (.leaf (-2)) 0 1) (0,0,1) (0,0,-1) =
      some ((LIQUID_COLORS .water).1 * (LIQUID_EMISSION_INTENSITY * (3/10)),
            (LIQUID_COLORS .water).2.1 * (LIQUID_EMISSION_INTENSITY * (3/10)),
            (LIQUID_COLORS .water).2.2 * (LIQUID_EMISSION_INTENSITY * (3/10))) := by
  obtain ⟨h1, h2⟩ := unknown_liquid_is_water "*acid" (by decide) (by decide)
    (by decide) (by decide) (by decide)
  refine ⟨h1, ?_⟩
  exact h2 [some (witSurfLiquid "*acid")] (fun _ => 256) witPlane
    (.leaf (-1)) (.leaf (-2)) 0 (0,0,1) (0,0,-1) (witSurfLiquid "*acid")
    { vecs0 := ((1,0,0), 0), vecs1 := ((0,1,0), 0),
      textureName := some "*acid" }
    (by norm_num [DotProduct, witPlane]) (by norm_num [DotProduct, witPlane])
    (by decide) (by decide) (by decide) (by decide) (by decide)


-- ============================================================================
-- Theorems: SH recombination versus full bake (C1)
-- ============================================================================

theorem shRay_add (d : Vec3) (r1 g1 b1 r2 g2 b2 : ℚ) :
    shRay d (r1 + r2) (g1 + g2) (b1 + b2) =
      shRay d r1 g1 b1 + shRay d r2 g2 b2 := by
  funext i
  fin_cases i <;> simp [shRay] <;> ring

theorem shRay_smul (d : Vec3) (k r g b : ℚ) :
    shRay d (k * r) (k * g) (k * b) = k • shRay d r g b := by
  funext i
  fin_cases i <;> simp [shRay] <;> ring

theorem shRay_combo (d : Vec3) (sv : ℕ → ℤ) (g : ℕ → Color) :
    ∀ (styles : List ℕ) (a1 a2 a3 : ℚ),
      shRay d (a1 + (styles.map fun s => ((sv s : ℚ)/256) * (g s).1).sum)
              (a2 + (styles.map fun s => ((sv s : ℚ)/256) * (g s).2.1).sum)
              (a3 + (styles.map fun s => ((sv s : ℚ)/256) * (g s).2.2).sum) =
        shRay d a1 a2 a3 +
          (styles.map fun s => ((sv s : ℚ)/256) •
            shRay d (g s).1 (g s).2.1 (g s).2.2).sum
  | [], a1, a2, a3 => by simp
  | st :: styles, a1, a2, a3 => by
      simp only [List.map_cons, List.sum_cons, ← add_assoc]
      rw [shRay_combo d sv g styles]
      rw [shRay_add, shRay_smul, add_assoc]


/-- Hypothesis for the amended SH round-trip claim, for one ray: the full
trace, the style-0 trace and every per-style trace agree on whether the ray
hits, and when they hit, the full sample equals the style-0 sample plus the
per-style samples weighted by currentStyleValue / 256 (this is what the 8.8
quantization `(r >> 8) / 255` of the full trace and diverging hit sets can
break). -/
def bakeRayCompat (sv : ℕ → ℤ) (styles : List ℕ)
    (F B : Vec3 → Vec3 → Option Color) (S : ℕ → Vec3 → Vec3 → Option Color)
    (p d : Vec3) : Prop :=
  (B p d).isSome = (F p d).isSome ∧
  (∀ s ∈ styles, (S s p d).isSome = (F p d).isSome) ∧
  ((F p d).isSome = true →
    ((F p d).getD (0,0,0)).1 = ((B p d).getD (0,0,0)).1 +
      (styles.map fun s => ((sv s : ℚ)/256) * ((S s p d).getD (0,0,0)).1).sum ∧
    ((F p d).getD (0,0,0)).2.1 = ((B p d).getD (0,0,0)).2.1 +
      (styles.map fun s => ((sv s : ℚ)/256) * ((S s p d).getD (0,0,0)).2.1).sum ∧
    ((F p d).getD (0,0,0)).2.2 = ((B p d).getD (0,0,0)).2.2 +
      (styles.map fun s => ((sv s : ℚ)/256) * ((S s p d).getD (0,0,0)).2.2).sum)

instance (sv : ℕ → ℤ) (styles : List ℕ) (F B : Vec3 → Vec3 → Option Color)
    (S : ℕ → Vec3 → Vec3 → Option Color) (p d : Vec3) :
    Decidable (bakeRayCompat sv styles F B S p d) := by
  unfold bakeRayCompat
  infer_instance

theorem contrib_count_congr (F B : Vec3 → Vec3 → Option Color)
    (L : List (Vec3 × Vec3))
    (h : ∀ pd ∈ L, (B pd.1 pd.2).isSome = (F pd.1 pd.2).isSome) :
    (L.filter fun pd => (B pd.1 pd.2).isSome).length =
      (L.filter fun pd => (F pd.1 pd.2).isSome).length := by
  rw [List.filter_congr h]

theorem contrib_sum_linear (sv : ℕ → ℤ) (styles : List ℕ)
    (F B : Vec3 → Vec3 → Option Color) (S : ℕ → Vec3 → Vec3 → Option Color) :
    ∀ (L : List (Vec3 × Vec3)),
      (∀ pd ∈ L, bakeRayCompat sv styles F B S pd.1 pd.2) →
      (L.filterMap (fun pd => (F pd.1 pd.2).map
          (fun c => shRay (vneg pd.2) c.1 c.2.1 c.2.2))).sum =
        (L.filterMap (fun pd => (B pd.1 pd.2).map
          (fun c => shRay (vneg pd.2) c.1 c.2.1 c.2.2))).sum +
        (styles.map (fun s => ((sv s : ℚ)/256) •
          (L.filterMap (fun pd => (S s pd.1 pd.2).map
            (fun c => shRay (vneg pd.2) c.1 c.2.1 c.2.2))).sum)).sum
  | [], _ => by
      simp only [List.filterMap_nil, List.sum_nil, zero_add]
      rw [eq_comm, List.sum_eq_zero]
      intro x hx
      obtain ⟨s, _, rfl⟩ := List.mem_map.mp hx
      simp
  | pd :: L, h => by
      have hpd := h pd (List.mem_cons_self pd L)
      have hL := fun x hx => h x (List.mem_cons_of_mem pd hx)
      obtain ⟨hB, hS, hval⟩ := hpd
      have ih := contrib_sum_linear sv styles F B S L hL
      cases hF : F pd.1 pd.2 with
      | none =>
        have hBn : B pd.1 pd.2 = none := by
          rw [hF] at hB; exact Option.not_isSome_iff_eq_none.mp (by simp [hB])
        have hmap : (styles.map (fun s => ((sv s : ℚ)/256) •
            ((pd :: L).filterMap (fun x => (S s x.1 x.2).map
              (fun c => shRay (vneg x.2) c.1 c.2.1 c.2.2))).sum)) =
            (styles.map (fun s => ((sv s : ℚ)/256) •
            (L.filterMap (fun x => (S s x.1 x.2).map
              (fun c => shRay (vneg x.2) c.1 c.2.1 c.2.2))).sum)) := by
          apply List.map_congr_left
          intro s hs
          have hSn : S s pd.1 pd.2 = none := by
            have := hS s hs
            rw [hF] at this
            exact Option.not_isSome_iff_eq_none.mp (by simp [this])
          rw [List.filterMap_cons_none (by simp [hSn])]
        rw [List.filterMap_cons_none (by simp [hF]),
          List.filterMap_cons_none (by simp [hBn]), hmap, ih]
      | some c =>
        have hsome : (F pd.1 pd.2).isSome = true := by simp [hF]
        obtain ⟨hv1, hv2, hv3⟩ := hval hsome
        have hBs : ∃ c0, B pd.1 pd.2 = some c0 :=
          Option.isSome_iff_exists.mp (by rw [hB, hF]; rfl)
        obtain ⟨c0, hc0⟩ := hBs
        have hmap : (styles.map (fun s => ((sv s : ℚ)/256) •
            ((pd :: L).filterMap (fun x => (S s x.1 x.2).map
              (fun c => shRay (vneg x.2) c.1 c.2.1 c.2.2))).sum)) =
            (styles.map (fun s => ((sv s : ℚ)/256) •
              (shRay (vneg pd.2) ((S s pd.1 pd.2).getD (0,0,0)).1
                  ((S s pd.1 pd.2).getD (0,0,0)).2.1
                  ((S s pd.1 pd.2).getD (0,0,0)).2.2 +
               (L.filterMap (fun x => (S s x.1 x.2).map
                (fun c => shRay (vneg x.2) c.1 c.2.1 c.2.2))).sum))) := by
          apply List.map_congr_left
          intro s hs
          obtain ⟨cs, hcs⟩ := Option.isSome_iff_exists.mp
            (show (S s pd.1 pd.2).isSome = true by rw [hS s hs, hF]; rfl)
          simp only [List.filterMap_cons, hcs, Option.map_some',
            Option.getD_some, List.sum_cons]
        rw [hmap]
        simp only [List.filterMap_cons, hF, hc0, Option.map_some',
          List.sum_cons]
        rw [ih]
        have hcomp : shRay (vneg pd.2) c.1 c.2.1 c.2.2 =
            shRay (vneg pd.2) c0.1 c0.2.1 c0.2.2 +
            (styles.map fun s => ((sv s : ℚ)/256) •
              shRay (vneg pd.2) ((S s pd.1 pd.2).getD (0,0,0)).1
                ((S s pd.1 pd.2).getD (0,0,0)).2.1
                ((S s pd.1 pd.2).getD (0,0,0)).2.2).sum := by
          rw [hF] at hv1 hv2 hv3
          rw [hc0] at hv1 hv2 hv3
          simp only [Option.getD_some] at hv1 hv2 hv3
          rw [hv1, hv2, hv3]
          exact shRay_combo (vneg pd.2) sv
            (fun s => (S s pd.1 pd.2).getD (0,0,0)) styles c0.1 c0.2.1 c0.2.2
        rw [hcomp]
        have hsplit : (styles.map (fun s => ((sv s : ℚ)/256) •
            (shRay (vneg pd.2) ((S s pd.1 pd.2).getD (0,0,0)).1
                ((S s pd.1 pd.2).getD (0,0,0)).2.1
                ((S s pd.1 pd.2).getD (0,0,0)).2.2 +
             (L.filterMap (fun x => (S s x.1 x.2).map
              (fun c => shRay (vneg x.2) c.1 c.2.1 c.2.2))).sum))).sum =
            (styles.map (fun s => ((sv s : ℚ)/256) •
              shRay (vneg pd.2) ((S s pd.1 pd.2).getD (0,0,0)).1
                ((S s pd.1 pd.2).getD (0,0,0)).2.1
                ((S s pd.1 pd.2).getD (0,0,0)).2.2)).sum +
            (styles.map (fun s => ((sv s : ℚ)/256) •
              (L.filterMap (fun x => (S s x.1 x.2).map
                (fun c => shRay (vneg x.2) c.1 c.2.1 c.2.2))).sum)).sum := by
          rw [← List.sum_map_add]
          apply congrArg
          apply List.map_congr_left
          intro s _
          simp [smul_add]
        rw [hsplit]
        abel


theorem mem_bakePairs {samplePositions directions : List Vec3}
    {pd : Vec3 × Vec3} (h : pd ∈ bakePairs samplePositions directions) :
    pd.1 ∈ samplePositions ∧ pd.2 ∈ directions := by
  unfold bakePairs at h
  simp only [List.mem_flatMap, List.mem_map] at h
  obtain ⟨p, hp, d, hd, rfl⟩ := h
  exact ⟨hp, hd⟩

theorem recombineSH_eq_base_add_sum (styleVals : ℕ → ℤ) :
    ∀ (styleContribs : List (ℕ × SH12)) (shBase : SH12),
      recombineSH shBase styleContribs styleVals =
        shBase + (styleContribs.map
          (fun contrib => ((styleVals contrib.1 : ℚ)/256) • contrib.2)).sum
  | [], shBase => by simp [recombineSH]
  | contrib :: rest, shBase => by
      unfold recombineSH
      rw [List.foldl_cons]
      have := recombineSH_eq_base_add_sum styleVals rest
        (shBase + ((styleVals contrib.1 : ℚ)/256) • contrib.2)
      unfold recombineSH at this
      rw [this]
      simp [add_assoc]

theorem buildStyleContribs_sum (model : QModel) (styleVals : ℕ → ℤ)
    (directions samplePositions : List Vec3) :
    ∀ (stylesArray : List ℕ),
      ((buildStyleContribs model directions samplePositions stylesArray).map
        (fun contrib => ((styleVals contrib.1 : ℚ)/256) • contrib.2)).sum =
      (stylesArray.map (fun s => ((styleVals s : ℚ)/256) •
        BakeProbeForStyleMultiSample model s directions samplePositions)).sum
  | [] => by simp [buildStyleContribs]
  | st :: rest => by
      unfold buildStyleContribs
      rw [List.filterMap_cons]
      by_cases h : BakeProbeForStyleMultiSample model st directions samplePositions = 0
      · simp only [h, ne_eq, not_true_eq_false, if_false]
        have := buildStyleContribs_sum model styleVals directions samplePositions rest
        unfold buildStyleContribs at this
        rw [List.map_cons, List.sum_cons, this, h, smul_zero, zero_add]
      · simp only [ne_eq, h, not_false_iff, if_true]
        have := buildStyleContribs_sum model styleVals directions samplePositions rest
        unfold buildStyleContribs at this
        rw [List.map_cons, List.sum_cons, List.map_cons, List.sum_cons, this]

/-- C1 (amended): the runtime recombination `base SH + Σ per-style SH ×
currentStyleValue/256` reproduces a from-scratch BakeProbeMultiSample over
the same sample positions and ray directions exactly, provided every cast
ray is decomposition-compatible: the full trace, the style-0 trace and each
per-style trace hit the same rays, and each hit's full sample equals the
style-weighted combination of its per-style samples.  (Without that proviso
the claim fails: the full bake quantizes `(Σ sample·scale) >> 8` and liquid
leaves return null for nonzero target styles, so hit sets and values can
diverge — see the counterexample.) -/
theorem probe_recombine_matches_full_bake (model : QModel) (styleVals : ℕ → ℤ)
    (directions samplePositions : List Vec3) (stylesArray : List ℕ)
    (hcompat : ∀ p ∈ samplePositions, ∀ d ∈ directions,
      bakeRayCompat styleVals stylesArray
        (R_SampleLightmapRGB model styleVals)
        (fun p d => R_SampleLightmapForStyle model p d 0)
        (fun s p d => R_SampleLightmapForStyle model p d s) p d) :
    recombineSH
        (BakeProbeForStyleMultiSample model 0 directions samplePositions)
        (buildStyleContribs model directions samplePositions stylesArray)
        styleVals =
      BakeProbeMultiSample model styleVals directions samplePositions := by
  have hcompat' : ∀ pd ∈ bakePairs samplePositions directions,
      bakeRayCompat styleVals stylesArray
        (R_SampleLightmapRGB model styleVals)
        (fun p d => R_SampleLightmapForStyle model p d 0)
        (fun s p d => R_SampleLightmapForStyle model p d s) pd.1 pd.2 := by
    intro pd hpd
    obtain ⟨hp, hd⟩ := mem_bakePairs hpd
    exact hcompat pd.1 hp pd.2 hd
  have hbakeF : BakeProbeMultiSample model styleVals directions samplePositions =
      bakeNormalize
        (((bakePairs samplePositions directions).filterMap
          (fun pd => (R_SampleLightmapRGB model styleVals pd.1 pd.2).map
            (fun c => shRay (vneg pd.2) c.1 c.2.1 c.2.2))).sum,
         ((bakePairs samplePositions directions).filter
          (fun pd => (R_SampleLightmapRGB model styleVals pd.1 pd.2).isSome)).length) := by
    unfold BakeProbeMultiSample bakeAccum
    rw [foldl_bakeStep]
    simp
  have hbakeS : ∀ targetStyle,
      BakeProbeForStyleMultiSample model targetStyle directions samplePositions =
      bakeNormalize
        (((bakePairs samplePositions directions).filterMap
          (fun pd => (R_SampleLightmapForStyle model pd.1 pd.2 targetStyle).map
            (fun c => shRay (vneg pd.2) c.1 c.2.1 c.2.2))).sum,
         ((bakePairs samplePositions directions).filter
          (fun pd => (R_SampleLightmapForStyle model pd.1 pd.2 targetStyle).isSome)).length) := by
    intro targetStyle
    unfold BakeProbeForStyleMultiSample bakeAccum
    rw [foldl_bakeStep]
    simp
  have hcntB : ((bakePairs samplePositions directions).filter
      (fun pd => (R_SampleLightmapForStyle model pd.1 pd.2 0).isSome)).length =
      ((bakePairs samplePositions directions).filter
      (fun pd => (R_SampleLightmapRGB model styleVals pd.1 pd.2).isSome)).length :=
    contrib_count_congr (R_SampleLightmapRGB model styleVals)
      (fun p d => R_SampleLightmapForStyle model p d 0) _
      (fun pd hpd => (hcompat' pd hpd).1)
  have hcntS : ∀ s ∈ stylesArray,
      ((bakePairs samplePositions directions).filter
      (fun pd => (R_SampleLightmapForStyle model pd.1 pd.2 s).isSome)).length =
      ((bakePairs samplePositions directions).filter
      (fun pd => (R_SampleLightmapRGB model styleVals pd.1 pd.2).isSome)).length :=
    fun s hs => contrib_count_congr (R_SampleLightmapRGB model styleVals)
      (fun p d => R_SampleLightmapForStyle model p d s) _
      (fun pd hpd => (hcompat' pd hpd).2.1 s hs)
  have hsum := contrib_sum_linear styleVals stylesArray
    (R_SampleLightmapRGB model styleVals)
    (fun p d => R_SampleLightmapForStyle model p d 0)
    (fun s p d => R_SampleLightmapForStyle model p d s)
    (bakePairs samplePositions directions) hcompat'
  rw [recombineSH_eq_base_add_sum, buildStyleContribs_sum, hbakeF]
  simp only [hbakeS]
  by_cases hN : 0 < ((bakePairs samplePositions directions).filter
      (fun pd => (R_SampleLightmapRGB model styleVals pd.1 pd.2).isSome)).length
  · have hmapS : (stylesArray.map (fun s => ((styleVals s : ℚ)/256) •
        bakeNormalize
        (((bakePairs samplePositions directions).filterMap
          (fun pd => (R_SampleLightmapForStyle model pd.1 pd.2 s).map
            (fun c => shRay (vneg pd.2) c.1 c.2.1 c.2.2))).sum,
         ((bakePairs samplePositions directions).filter
          (fun pd => (R_SampleLightmapForStyle model pd.1 pd.2 s).isSome)).length))) =
        (stylesArray.map (fun s => ((styleVals s : ℚ)/256) •
          (((((bakePairs samplePositions directions).filter
            (fun pd => (R_SampleLightmapRGB model styleVals pd.1 pd.2).isSome)).length : ℚ))⁻¹ •
          ((bakePairs samplePositions directions).filterMap
            (fun pd => (R_SampleLightmapForStyle model pd.1 pd.2 s).map
              (fun c => shRay (vneg pd.2) c.1 c.2.1 c.2.2))).sum))) := by
      apply List.map_congr_left
      intro s hs
      unfold bakeNormalize
      simp only [hcntS s hs, hN, if_true]
    rw [hmapS]
    unfold bakeNormalize
    simp only [hcntB, hN, if_true]
    rw [hsum]
    rw [smul_add]
    congr 1
    rw [List.smul_sum, List.map_map]
    apply congrArg List.sum
    apply List.map_congr_left
    intro s _
    simp only [Function.comp_apply]
    rw [smul_comm]
  · have hzero : ∀ (G : Vec3 → Vec3 → Option Color),
        ((bakePairs samplePositions directions).filter
          (fun pd => (G pd.1 pd.2).isSome)).length =
        ((bakePairs samplePositions directions).filter
          (fun pd => (R_SampleLightmapRGB model styleVals pd.1 pd.2).isSome)).length →
        ((bakePairs samplePositions directions).filterMap
          (fun pd => (G pd.1 pd.2).map
            (fun c => shRay (vneg pd.2) c.1 c.2.1 c.2.2))).sum = 0 := by
      intro G hG
      rw [filterMap_contrib_nil G _ (by omega)]
      rfl
    have hF0 := hzero (R_SampleLightmapRGB model styleVals) rfl
    have hB0 : ((bakePairs samplePositions directions).filterMap
        (fun pd => (R_SampleLightmapForStyle model pd.1 pd.2 0).map
          (fun c => shRay (vneg pd.2) c.1 c.2.1 c.2.2))).sum = 0 :=
      hzero (fun p d => R_SampleLightmapForStyle model p d 0) hcntB
    have hnormF : bakeNormalize
        (((bakePairs samplePositions directions).filterMap
          (fun pd => (R_SampleLightmapRGB model styleVals pd.1 pd.2).map
            (fun c => shRay (vneg pd.2) c.1 c.2.1 c.2.2))).sum,
         ((bakePairs samplePositions directions).filter
          (fun pd => (R_SampleLightmapRGB model styleVals pd.1 pd.2).isSome)).length) = 0 := by
      unfold bakeNormalize
      simp [hN, hF0]
    have hnormB : bakeNormalize
        (((bakePairs samplePositions directions).filterMap
          (fun pd => (R_SampleLightmapForStyle model pd.1 pd.2 0).map
            (fun c => shRay (vneg pd.2) c.1 c.2.1 c.2.2))).sum,
         ((bakePairs samplePositions directions).filter
          (fun pd => (R_SampleLightmapForStyle model pd.1 pd.2 0).isSome)).length) = 0 := by
      unfold bakeNormalize
      simp [hcntB, hN, hB0]
    have hsumS : (stylesArray.map (fun s => ((styleVals s : ℚ)/256) •
        bakeNormalize
        (((bakePairs samplePositions directions).filterMap
          (fun pd => (R_SampleLightmapForStyle model pd.1 pd.2 s).map
            (fun c => shRay (vneg pd.2) c.1 c.2.1 c.2.2))).sum,
         ((bakePairs samplePositions directions).filter
          (fun pd => (R_SampleLightmapForStyle model pd.1 pd.2 s).isSome)).length))).sum = 0 := by
      apply List.sum_eq_zero
      intro x hx
      obtain ⟨s, hs, rfl⟩ := List.mem_map.mp hx
      have hS0 : ((bakePairs samplePositions directions).filterMap
          (fun pd => (R_SampleLightmapForStyle model pd.1 pd.2 s).map
            (fun c => shRay (vneg pd.2) c.1 c.2.1 c.2.2))).sum = 0 :=
        hzero (fun p d => R_SampleLightmapForStyle model p d s) (hcntS s hs)
      rw [hS0]
      unfold bakeNormalize
      simp
    rw [hnormF, hnormB, hsumS]
    simp


/-- The surface of the C1 counterexample model: lit by animated style 5
only, with every raw lightmap sample 255. -/
def cexProbeSurf : Surf :=
  { flags := 0,
    texinfo := some { vecs0 := ((1,0,0), 0), vecs1 := ((0,1,0), 0),
                      textureName := none },
    texturemins0 := 0, texturemins1 := 0, extents0 := 16, extents1 := 16,
    samples := some (List.replicate 8 255), sampleOffset := 0,
    styles := [5, 255, 255, 255] }

def cexProbeModel : QModel :=
  { haslightdata := true,
    root := .node (some { normal := (0,0,1), dist := 0 })
      (.leaf (-1)) (.leaf (-2)) 0 1,
    surfaces := [some cexProbeSurf], numsurfaces := 1,
    numleafs := 1, leafs := fun _ => none }

def cexProbeStyleVals : ℕ → ℤ := fun s => if s = 5 then 300 else 256

def cexProbePositions : List Vec3 := [(8, 8, 16)]

/-- C1 (counterexample): with one surface carrying only animated style 5
(raw sample 255, current value 300, a single probe sample position and the
low-quality ray set), the runtime recombination differs from a from-scratch
BakeProbeMultiSample under the same style values by more than the claimed
1e-4 tolerance in the first SH coefficient: the full bake computes
((255·300) >> 8)/255 = 298/255 per ray while the decomposition recombines
(255/255)·(300/256), an absolute SH difference of about 9.2e-4. -/
theorem probe_recombine_full_bake_cex :
    (1 : ℚ)/10000 <
      |(recombineSH
          (BakeProbeForStyleMultiSample cexProbeModel 0 RAY_DIRECTIONS_LOW
            cexProbePositions)
          (buildStyleContribs cexProbeModel RAY_DIRECTIONS_LOW
            cexProbePositions [5])
          cexProbeStyleVals) 0 -
        (BakeProbeMultiSample cexProbeModel cexProbeStyleVals
          RAY_DIRECTIONS_LOW cexProbePositions) 0| := by decide

def linProbeSurf : Surf :=
  { flags := 0,
    texinfo := some { vecs0 := ((1,0,0), 0), vecs1 := ((0,1,0), 0),
                      textureName := none },
    texturemins0 := 0, texturemins1 := 0, extents0 := 16, extents1 := 16,
    samples := some (List.replicate 8 128), sampleOffset := 0,
    styles := [5, 255, 255, 255] }

def linProbeModel : QModel :=
  { haslightdata := true,
    root := .node (some { normal := (0,0,1), dist := 0 })
      (.leaf (-1)) (.leaf (-2)) 0 1,
    surfaces := [some linProbeSurf], numsurfaces := 1,
    numleafs := 1, leafs := fun _ => none }

def linProbeStyleVals : ℕ → ℤ := fun s => if s = 5 then 512 else 256

theorem probe_recombine_matches_full_bake_witness :
    (∀ p ∈ ([((8 : ℚ), (8 : ℚ), (16 : ℚ))] : List Vec3),
      ∀ d ∈ RAY_DIRECTIONS_LOW,
      bakeRayCompat linProbeStyleVals [5]
        (R_SampleLightmapRGB linProbeModel linProbeStyleVals)
        (fun p d => R_SampleLightmapForStyle linProbeModel p d 0)
        (fun s p d => R_SampleLightmapForStyle linProbeModel p d s) p d) ∧
    recombineSH
        (BakeProbeForStyleMultiSample linProbeModel 0 RAY_DIRECTIONS_LOW
          [((8 : ℚ), (8 : ℚ), (16 : ℚ))])
        (buildStyleContribs linProbeModel RAY_DIRECTIONS_LOW
          [((8 : ℚ), (8 : ℚ), (16 : ℚ))] [5])
        linProbeStyleVals =
      BakeProbeMultiSample linProbeModel linProbeStyleVals
        RAY_DIRECTIONS_LOW [((8 : ℚ), (8 : ℚ), (16 : ℚ))] :=
  ⟨by decide, probe_recombine_matches_full_bake linProbeModel
    linProbeStyleVals RAY_DIRECTIONS_LOW [((8 : ℚ), (8 : ℚ), (16 : ℚ))] [5]
    (by decide)⟩



-- ============================================================================
-- part_004: R_MarkLeaves (PVS visibility walker)
-- ============================================================================

/-- The world-model data R_MarkLeaves reads: the leaf count, each 1-based
leaf's node object (null leaves allowed) and the leaf-to-parent pointers of
the BSP tree, with nodes and leaves named by ids. -/
structure MarkWorld where
  numleafs : ℕ
  leafNode : ℕ → Option ℕ
  parent : ℕ → Option ℕ

/-- The mutable state R_MarkLeaves touches: the visibility frame counter,
the cached old view leaf and the per-node visframe stamps. -/
structure MarkState where
  visframecount : ℤ
  oldviewleaf : Option ℕ
  visframe : ℕ → ℤ

/-- The outcome of one R_MarkLeaves call, instrumented with the number of
Mod_LeafPVS resolutions it performed. -/
structure MarkResult where
  state : MarkState
  pvsResolves : ℕ

/-- The leaf-to-root marking walk: follow parent pointers stamping visframe
with the current counter, stopping at null or at a node already stamped
this pass.  The walk is fuel-bounded; the source relies on parent chains
being finite. -/
def markChain (w : MarkWorld) (count : ℤ) :
    ℕ → Option ℕ → (ℕ → ℤ) → (ℕ → ℤ)
  | 0, _, vf => vf
  | _ + 1, none, vf => vf
  | fuel + 1, some n, vf =>
    if vf n = count then vf
    else markChain w count fuel (w.parent n)
      (fun x => if x = n then count else vf x)

/-- The all-ones visibility bitset `new Uint8Array(numBytes).fill(0xff)`
(reads beyond the array give 0 like a JS undefined in a bit test). -/
def allOnesVis (numBytes : ℕ) : ℕ → ℕ :=
  fun i => if i < numBytes then 0xff else 0

/-- R_MarkLeaves: skip when the view leaf is unchanged and novis is off, or
when rendering a mirror pass; otherwise advance the visibility frame
counter, resolve the PVS bitset (all-ones when novis is set or the view
leaf is null), and for every leaf whose bit is set walk its parent chain
stamping visframe.  `leafPVS` stands for the external Mod_LeafPVS; the
result counts how often it was consulted. -/
def R_MarkLeaves (w : MarkWorld) (viewleaf : Option ℕ) (novis mirror : Bool)
    (leafPVS : ℕ → Option (ℕ → ℕ)) (fuel : ℕ) (s : MarkState) : MarkResult :=
  if s.oldviewleaf = viewleaf ∧ novis = false then ⟨s, 0⟩
  else if mirror then ⟨s, 0⟩
  else
    let count := s.visframecount + 1
    let visResult : Option (ℕ → ℕ) × ℕ :=
      if novis = true ∨ viewleaf = none then
        (some (allOnesVis ((w.numleafs + 7) >>> 3)), 0)
      else
        (leafPVS (viewleaf.getD 0), 1)
    match visResult.1 with
    | none =>
      ⟨{ visframecount := count, oldviewleaf := viewleaf,
         visframe := s.visframe }, visResult.2⟩
    | some vis =>
      let vf := (List.range w.numleafs).foldl (fun vf i =>
        if vis (i >>> 3) &&& (1 <<< (i % 8)) ≠ 0 then
          markChain w count fuel (w.leafNode (i + 1)) vf
        else vf) s.visframe
      ⟨{ visframecount := count, oldviewleaf := viewleaf, visframe := vf },
       visResult.2⟩

theorem markChain_keeps (w : MarkWorld) (count : ℤ) :
    ∀ (fuel : ℕ) (node : Option ℕ) (vf : ℕ → ℤ) (x : ℕ),
      vf x = count → markChain w count fuel node vf x = count
  | 0, _, _, _, h => h
  | _ + 1, none, _, _, h => h
  | fuel + 1, some n, vf, x, h => by
      rw [markChain]
      by_cases hn : vf n = count
      · simp [hn, h]
      · simp only [hn, if_false]
        apply markChain_keeps
        by_cases hx : x = n <;> simp [hx, h]

theorem markChain_marks_head (w : MarkWorld) (count : ℤ) (fuel : ℕ)
    (hfuel : 1 ≤ fuel) (n : ℕ) (vf : ℕ → ℤ) :
    markChain w count fuel (some n) vf n = count := by
  cases fuel with
  | zero => omega
  | succ fuel =>
    rw [markChain]
    by_cases hn : vf n = count
    · simp [hn]
    · simp only [hn, if_false]
      apply markChain_keeps
      simp

theorem markLoop_keeps (w : MarkWorld) (count : ℤ) (fuel : ℕ)
    (vis : ℕ → ℕ) :
    ∀ (l : List ℕ) (vf : ℕ → ℤ) (x : ℕ), vf x = count →
      (l.foldl (fun vf i =>
        if vis (i >>> 3) &&& (1 <<< (i % 8)) ≠ 0 then
          markChain w count fuel (w.leafNode (i + 1)) vf
        else vf) vf) x = count
  | [], _, _, h => h
  | j :: rest, vf, x, h => by
      rw [List.foldl_cons]
      apply markLoop_keeps
      by_cases hbit : vis (j >>> 3) &&& (1 <<< (j % 8)) ≠ 0
      · simpa [hbit] using markChain_keeps w count fuel (w.leafNode (j + 1)) vf x h
      · simpa [hbit] using h

theorem markLoop_marks (w : MarkWorld) (count : ℤ) (fuel : ℕ)
    (hfuel : 1 ≤ fuel) (vis : ℕ → ℕ) :
    ∀ (l : List ℕ) (vf : ℕ → ℤ) (i : ℕ), i ∈ l →
      vis (i >>> 3) &&& (1 <<< (i % 8)) ≠ 0 →
      ∀ nid, w.leafNode (i + 1) = some nid →
      (l.foldl (fun vf i =>
        if vis (i >>> 3) &&& (1 <<< (i % 8)) ≠ 0 then
          markChain w count fuel (w.leafNode (i + 1)) vf
        else vf) vf) nid = count
  | [], _, _, hi, _, _, _ => absurd hi (List.not_mem_nil _)
  | j :: rest, vf, i, hi, hbit, nid, hnid => by
      rw [List.foldl_cons]
      rcases List.mem_cons.mp hi with heq | hmem
      · subst heq
        apply markLoop_keeps
        simpa [hbit, hnid] using markChain_marks_head w count fuel hfuel nid vf
      · exact markLoop_marks w count fuel hfuel vis rest _ i hmem hbit nid hnid

theorem allOnesVis_bit_set (numleafs i : ℕ) (h : i < numleafs) :
    allOnesVis ((numleafs + 7) >>> 3) (i >>> 3) &&& (1 <<< (i % 8)) ≠ 0 := by
  have hdiv : i >>> 3 < (numleafs + 7) >>> 3 := by
    simp only [Nat.shiftRight_eq_div_pow]
    omega
  unfold allOnesVis
  rw [if_pos hdiv]
  have hm : i % 8 < 8 := Nat.mod_lt _ (by norm_num)
  interval_cases h : i % 8 <;> decide


/-- C2: in a frame where no PVS bitset is resolvable (novis set, or the view
leaf null because the camera is outside the map), a non-skipped R_MarkLeaves
pass (view leaf changed or novis forcing the pass; not a mirror pass) marks
every leaf of the world model visible for the current visibility frame:
every non-null leaf's visframe equals the new visibility frame counter. -/
theorem markleaves_no_pvs_marks_all_leaves (w : MarkWorld)
    (viewleaf : Option ℕ) (novis : Bool) (leafPVS : ℕ → Option (ℕ → ℕ))
    (fuel : ℕ) (s : MarkState)
    (hfuel : 1 ≤ fuel)
    (hnopvs : novis = true ∨ viewleaf = none)
    (hrun : ¬(s.oldviewleaf = viewleaf ∧ novis = false)) :
    ∀ i, 1 ≤ i → i ≤ w.numleafs → ∀ nid, w.leafNode i = some nid →
      (R_MarkLeaves w viewleaf novis false leafPVS fuel s).state.visframe nid =
        (R_MarkLeaves w viewleaf novis false leafPVS fuel s).state.visframecount := by
  intro i h1 h2 nid hnid
  unfold R_MarkLeaves
  rw [if_neg hrun]
  simp only [Bool.false_eq_true, if_false, hnopvs, if_pos]
  exact markLoop_marks w (s.visframecount + 1) fuel hfuel _
    (List.range w.numleafs) s.visframe (i - 1)
    (List.mem_range.mpr (by omega))
    (allOnesVis_bit_set w.numleafs (i - 1) (by omega))
    nid (by rw [show i - 1 + 1 = i from by omega]; exact hnid)

/-- A two-leaf world with a shared parent used to instantiate the
R_MarkLeaves theorems at concrete inputs. -/
def witMarkWorld : MarkWorld :=
  { numleafs := 2,
    leafNode := fun i => if i = 1 then some 10 else if i = 2 then some 11 else none,
    parent := fun n => if n = 10 ∨ n = 11 then some 12 else none }

/-- A concrete pre-call state for the R_MarkLeaves instantiations. -/
def witMarkState : MarkState :=
  { visframecount := 7, oldviewleaf := some 1, visframe := fun _ => 0 }

theorem markleaves_no_pvs_marks_all_leaves_witness :
    (R_MarkLeaves witMarkWorld none false false (fun _ => none) 4
        witMarkState).state.visframe 10 =
      (R_MarkLeaves witMarkWorld none false false (fun _ => none) 4
        witMarkState).state.visframecount ∧
    (R_MarkLeaves witMarkWorld none false false (fun _ => none) 4
        witMarkState).state.visframe 11 =
      (R_MarkLeaves witMarkWorld none false false (fun _ => none) 4
        witMarkState).state.visframecount := by
  have h := markleaves_no_pvs_marks_all_leaves witMarkWorld none false
    (fun _ => none) 4 witMarkState (by norm_num) (Or.inr rfl) (by simp [witMarkState])
  exact ⟨h 1 (by norm_num) (by norm_num [witMarkWorld]) 10 (by decide),
         h 2 (by norm_num) (by norm_num [witMarkWorld]) 11 (by decide)⟩

/-- C9: when the camera's view leaf is unchanged since the previous frame
and the novis flag is off, R_MarkLeaves returns immediately: the visibility
frame counter is not incremented, Mod_LeafPVS is never consulted, and all
visframe state is left untouched. -/
theorem markleaves_unchanged_leaf_skips (w : MarkWorld)
    (viewleaf : Option ℕ) (mirror : Bool) (leafPVS : ℕ → Option (ℕ → ℕ))
    (fuel : ℕ) (s : MarkState)
    (hold : s.oldviewleaf = viewleaf) :
    R_MarkLeaves w viewleaf false mirror leafPVS fuel s = ⟨s, 0⟩ := by
  unfold R_MarkLeaves
  rw [if_pos ⟨hold, rfl⟩]

theorem markleaves_unchanged_leaf_skips_witness :
    R_MarkLeaves witMarkWorld (some 1) false false (fun _ => none) 4
      witMarkState = ⟨witMarkState, 0⟩ :=
  markleaves_unchanged_leaf_skips witMarkWorld (some 1) false
    (fun _ => none) 4 witMarkState rfl



-- ============================================================================
-- part_004: R_BuildLightMap (lightmap builder)
-- ============================================================================

/-- A JS Uint32Array element store: ToUint32 reduction modulo 2^32. -/
def uint32store (z : ℤ) : ℕ := (z % 2 ^ 32).toNat

/-- A JS Uint8Array element store: ToUint8 reduction modulo 2^8. -/
def uint8store (z : ℤ) : ℕ := (z % 2 ^ 8).toNat

/-- The inner texel loop of one style slot of R_BuildLightMap:
`blocklights[i] += lightmap[lightmapOffset + i] * scale` for every texel,
each store reducing modulo 2^32 (Uint32Array semantics). -/
def addSamples (scale : ℤ) (lightmap : List ℕ) (offset : ℕ) :
    List ℕ → ℕ → List ℕ
  | [], _ => []
  | v :: rest, i =>
    uint32store ((v : ℤ) + (lightmap.getD (offset + i) 0 : ℤ) * scale) ::
      addSamples scale lightmap offset rest (i + 1)

/-- The style-slot loop of R_BuildLightMap: for each active style slot, add
`sample × currentStyleValue` over all texels, advancing the lightmap offset
by the texel count per slot. -/
def styleSlotsAccum (styleVals : ℕ → ℤ) (lightmap : List ℕ) :
    List ℕ → ℕ → ℕ → List ℕ → List ℕ
  | [], _, _, bl => bl
  | st :: rest, offset, size, bl =>
    styleSlotsAccum styleVals lightmap rest (offset + size) size
      (addSamples (styleVals st) lightmap offset bl 0)

/-- The per-texel additions R_AddDynamicLights performs when the surface was
touched by dynamic lights this frame, abstracted as the per-texel totals of
the `((rad - dist) * 256) | 0` contributions of the (at most 32) lights. -/
def addDynLights : List ℕ → List ℤ → List ℕ
  | [], _ => []
  | bl, [] => bl
  | v :: bl, d :: dyn => uint32store ((v : ℤ) + d) :: addDynLights bl dyn

/-- The accumulation phase of R_BuildLightMap into the blocklights buffer:
full bright (65280 per texel) when r_fullbright is set or the surface has no
light samples; otherwise clear, add all active style slots, then the dynamic
light contributions when the surface was touched this frame. -/
def buildBlocklights (surf : Surf) (styleVals : ℕ → ℤ)
    (fullbright dlightTouched : Bool) (dyn : List ℤ) : List ℕ :=
  let smax := (jsShr surf.extents0 4).toNat + 1
  let tmax := (jsShr surf.extents1 4).toNat + 1
  let size := smax * tmax
  if fullbright ∨ surf.samples = none then List.replicate size (255 * 256)
  else
    let lightmap := surf.samples.getD []
    let styled := styleSlotsAccum styleVals lightmap (activeStyles surf)
      surf.sampleOffset size (List.replicate size 0)
    if dlightTouched then addDynLights styled dyn else styled

/-- R_BuildLightMap: accumulate the 8.8 fixed-point blocklights buffer, then
bound, invert and shift each texel — `t = blocklights[i] >> 7`, clamp at
255, store `255 - t` into the destination Uint8Array.  The result is the
list of destination byte values in texel order (the destOffset/stride
arguments of the source only choose where in the atlas they land). -/
def R_BuildLightMap (surf : Surf) (styleVals : ℕ → ℤ)
    (fullbright dlightTouched : Bool) (dyn : List ℤ) : List ℕ :=
  (buildBlocklights surf styleVals fullbright dlightTouched dyn).map
    (fun v : ℕ =>
      let t := jsShr (v : ℤ) 7
      let t' := if t > 255 then (255 : ℤ) else t
      uint8store (255 - t'))

theorem addSamples_bound (scale : ℤ) (lightmap : List ℕ) (offset : ℕ)
    (B : ℤ) (hscale : 0 ≤ scale ∧ scale ≤ 4 * 256)
    (hlm : ∀ v ∈ lightmap, v ≤ 255)
    (hB : 0 ≤ B ∧ B + 255 * 1024 < 2 ^ 32) :
    ∀ (bl : List ℕ) (i : ℕ), (∀ v ∈ bl, (v : ℤ) ≤ B) →
      ∀ v ∈ addSamples scale lightmap offset bl i, (v : ℤ) ≤ B + 255 * 1024
  | [], _, _ => by simp [addSamples]
  | v :: rest, i, hbl => by
      intro x hx
      rw [addSamples] at hx
      rcases List.mem_cons.mp hx with heq | hmem
      · subst heq
        have hv : (v : ℤ) ≤ B := hbl v (List.mem_cons_self v rest)
        have hsamp : (lightmap.getD (offset + i) 0 : ℤ) ≤ 255 := by
          by_cases hin : offset + i < lightmap.length
          · have hmem' : lightmap.getD (offset + i) 0 ∈ lightmap := by
              rw [List.getD_eq_getElem?_getD, List.getElem?_eq_getElem hin]
              exact List.getElem_mem hin
            exact_mod_cast hlm _ hmem'
          · rw [List.getD_eq_default _ _ (by omega)]
            norm_num
        have hsampnn : (0 : ℤ) ≤ (lightmap.getD (offset + i) 0 : ℤ) := by positivity
        unfold uint32store
        have hle : (v : ℤ) + (lightmap.getD (offset + i) 0 : ℤ) * scale ≤
            B + 255 * 1024 := by nlinarith [hscale.1, hscale.2]
        have hnn : (0 : ℤ) ≤ (v : ℤ) + (lightmap.getD (offset + i) 0 : ℤ) * scale :=
          add_nonneg (by positivity) (mul_nonneg hsampnn hscale.1)
        rw [Int.emod_eq_of_lt hnn (by omega)]
        omega
      · exact addSamples_bound scale lightmap offset B hscale hlm hB rest (i + 1)
          (fun y hy => hbl y (List.mem_cons_of_mem v hy)) x hmem


theorem styleSlotsAccum_bound (styleVals : ℕ → ℤ) (lightmap : List ℕ)
    (hlm : ∀ v ∈ lightmap, v ≤ 255) :
    ∀ (slots : List ℕ) (offset size : ℕ) (bl : List ℕ) (B : ℤ),
      (∀ st ∈ slots, 0 ≤ styleVals st ∧ styleVals st ≤ 4 * 256) →
      (0 ≤ B ∧ B + slots.length * (255 * 1024) < 2 ^ 32) →
      (∀ v ∈ bl, (v : ℤ) ≤ B) →
      ∀ v ∈ styleSlotsAccum styleVals lightmap slots offset size bl,
        (v : ℤ) ≤ B + slots.length * (255 * 1024)
  | [], _, _, bl, B, _, _, hbl => by simpa [styleSlotsAccum] using hbl
  | st :: rest, offset, size, bl, B, hsc, hB, hbl => by
      intro v hv
      rw [styleSlotsAccum] at hv
      have hlen : ((st :: rest).length : ℤ) * (255 * 1024) =
          (rest.length : ℤ) * (255 * 1024) + 255 * 1024 := by
        simp [List.length_cons]
        ring
      have hstep := addSamples_bound (styleVals st) lightmap offset B
        (hsc st (List.mem_cons_self st rest)) hlm
        ⟨hB.1, by push_cast at hB ⊢; nlinarith [rest.length.cast_nonneg (α := ℤ)]⟩
        bl 0 hbl
      have := styleSlotsAccum_bound styleVals lightmap hlm rest (offset + size)
        size (addSamples (styleVals st) lightmap offset bl 0) (B + 255 * 1024)
        (fun x hx => hsc x (List.mem_cons_of_mem st hx))
        ⟨by omega, by push_cast at hB ⊢; nlinarith⟩ hstep v hv
      push_cast at this ⊢
      nlinarith

theorem addDynLights_bound (B D : ℤ) (hB : 0 ≤ B) (hD : 0 ≤ D)
    (hBD : B + D < 2 ^ 32) :
    ∀ (bl : List ℕ) (dyn : List ℤ), (∀ v ∈ bl, (v : ℤ) ≤ B) →
      (∀ d ∈ dyn, 0 ≤ d ∧ d ≤ D) →
      ∀ v ∈ addDynLights bl dyn, (v : ℤ) ≤ B + D
  | [], _, _, _ => by simp [addDynLights]
  | bl, [], hbl, _ => by
      rw [addDynLights.eq_def]
      cases bl with
      | nil => simp
      | cons v rest =>
        intro x hx
        have := hbl x hx
        omega
  | v :: bl, d :: dyn, hbl, hdyn => by
      intro x hx
      rw [addDynLights] at hx
      rcases List.mem_cons.mp hx with heq | hmem
      · subst heq
        have hv := hbl v (List.mem_cons_self v bl)
        have hd := hdyn d (List.mem_cons_self d dyn)
        unfold uint32store
        rw [Int.emod_eq_of_lt (by omega) (by omega)]
        omega
      · exact addDynLights_bound B D hB hD hBD bl dyn
          (fun y hy => hbl y (List.mem_cons_of_mem v hy))
          (fun y hy => hdyn y (List.mem_cons_of_mem d hy)) x hmem

theorem activeStyles_length_le (surf : Surf) : (activeStyles surf).length ≤ 4 := by
  unfold activeStyles MAXLIGHTMAPS
  calc ((surf.styles.take 4).takeWhile (fun st => st ≠ 255)).length
      ≤ (surf.styles.take 4).length := (List.takeWhile_sublist _).length_le
    _ ≤ 4 := by simp

theorem blocklights_bound (surf : Surf) (styleVals : ℕ → ℤ)
    (fullbright dlightTouched : Bool) (dyn : List ℤ)
    (hsample : ∀ v ∈ surf.samples.getD [], v ≤ 255)
    (hscale : ∀ st ∈ activeStyles surf,
      0 ≤ styleVals st ∧ styleVals st ≤ 4 * 256)
    (hdyn : ∀ d ∈ dyn, 0 ≤ d ∧ d ≤ 32 * 2 ^ 24) :
    ∀ v ∈ buildBlocklights surf styleVals fullbright dlightTouched dyn,
      (v : ℤ) < 2 ^ 31 := by
  intro v hv
  unfold buildBlocklights at hv
  by_cases hfb : fullbright = true ∨ surf.samples = none
  · simp only [hfb, if_true] at hv
    have := List.eq_of_mem_replicate hv
    omega
  · simp only [hfb, if_false] at hv
    have hlm : ∀ x ∈ surf.samples.getD [], x ≤ 255 := hsample
    have hstyled := styleSlotsAccum_bound styleVals (surf.samples.getD []) hlm
      (activeStyles surf) surf.sampleOffset
      (((jsShr surf.extents0 4).toNat + 1) * ((jsShr surf.extents1 4).toNat + 1))
      (List.replicate (((jsShr surf.extents0 4).toNat + 1) *
        ((jsShr surf.extents1 4).toNat + 1)) 0) 0 hscale
      (by
        constructor
        · norm_num
        · have := activeStyles_length_le surf
          push_cast
          nlinarith)
      (by intro x hx; have := List.eq_of_mem_replicate hx; omega)
    have hstyledB : ∀ x ∈ styleSlotsAccum styleVals (surf.samples.getD [])
        (activeStyles surf) surf.sampleOffset
        (((jsShr surf.extents0 4).toNat + 1) * ((jsShr surf.extents1 4).toNat + 1))
        (List.replicate (((jsShr surf.extents0 4).toNat + 1) *
          ((jsShr surf.extents1 4).toNat + 1)) 0),
        (x : ℤ) ≤ 4 * (255 * 1024) := by
      intro x hx
      have h1 := hstyled x hx
      have := activeStyles_length_le surf
      push_cast at h1 ⊢
      nlinarith
    by_cases hdl : dlightTouched = true
    · simp only [hdl, if_true] at hv
      have := addDynLights_bound (4 * (255 * 1024)) (32 * 2 ^ 24)
        (by norm_num) (by norm_num) (by norm_num) _ dyn hstyledB hdyn v hv
      omega
    · simp only [hdl, if_false] at hv
      have := hstyledB v hv
      omega

theorem saturate_step (v : ℕ) (h : (v : ℤ) < 2 ^ 31) :
    (fun v : ℕ =>
      let t := jsShr (v : ℤ) 7
      let t' := if t > 255 then (255 : ℤ) else t
      uint8store (255 - t')) v = 255 - min (v / 2 ^ 7) 255 := by
  have ht32 : toInt32 (v : ℤ) = (v : ℤ) := by
    unfold toInt32
    have h1 : (0 : ℤ) ≤ (v : ℤ) := by positivity
    rw [Int.emod_eq_of_lt (by omega) (by omega)]
    ring
  have hshr : jsShr (v : ℤ) 7 = ((v / 2 ^ 7 : ℕ) : ℤ) := by
    unfold jsShr
    rw [ht32]
    rw [Int.fdiv_eq_div (by positivity)]
    · exact_mod_cast (Int.ofNat_div v 128).symm
    · norm_num
  simp only [hshr]
  unfold uint8store
  by_cases hc : ((v / 2 ^ 7 : ℕ) : ℤ) > 255
  · rw [if_pos hc]
    norm_num
    omega
  · rw [if_neg hc]
    rw [Int.emod_eq_of_lt (by omega) (by omega)]
    omega

/-- C4: with style scales between 0 and 4 × 256, byte-valued light samples
and at most 32 dynamic-light contributions of sane magnitude per texel,
every texel value R_BuildLightMap writes is `255 - min(blocklights >> 7,
255)`: the accumulated 8.8 sum is shifted right by 7 and saturated at 255
(no ToInt32 or Uint8 wraparound occurs), so every written value lies in
[0, 255]. -/
theorem buildLightMap_saturates (surf : Surf) (styleVals : ℕ → ℤ)
    (fullbright dlightTouched : Bool) (dyn : List ℤ)
    (hsample : ∀ v ∈ surf.samples.getD [], v ≤ 255)
    (hscale : ∀ st ∈ activeStyles surf,
      0 ≤ styleVals st ∧ styleVals st ≤ 4 * 256)
    (hdyn : ∀ d ∈ dyn, 0 ≤ d ∧ d ≤ 32 * 2 ^ 24) :
    R_BuildLightMap surf styleVals fullbright dlightTouched dyn =
      (buildBlocklights surf styleVals fullbright dlightTouched dyn).map
        (fun v => 255 - min (v / 2 ^ 7) 255) ∧
    ∀ b ∈ R_BuildLightMap surf styleVals fullbright dlightTouched dyn,
      b ≤ 255 := by
  have hbound := blocklights_bound surf styleVals fullbright dlightTouched dyn
    hsample hscale hdyn
  have hmap : R_BuildLightMap surf styleVals fullbright dlightTouched dyn =
      (buildBlocklights surf styleVals fullbright dlightTouched dyn).map
        (fun v => 255 - min (v / 2 ^ 7) 255) := by
    unfold R_BuildLightMap
    apply List.map_congr_left
    intro v hv
    exact saturate_step v (hbound v hv)
  refine ⟨hmap, ?_⟩
  rw [hmap]
  intro b hb
  obtain ⟨v, _, rfl⟩ := List.mem_map.mp hb
  omega


/-- A surface with all raw samples 255 on one over-bright style, used to
instantiate the lightmap saturation theorem where the clamp engages. -/
def witLMSurf : Surf :=
  { flags := 0, texinfo := none, texturemins0 := 0, texturemins1 := 0,
    extents0 := 16, extents1 := 16, samples := some (List.replicate 4 255),
    sampleOffset := 0, styles := [0, 255, 255, 255] }

theorem buildLightMap_saturates_witness :
    (R_BuildLightMap witLMSurf (fun _ => 1024) false false [] =
      (buildBlocklights witLMSurf (fun _ => 1024) false false []).map
        (fun v => 255 - min (v / 2 ^ 7) 255) ∧
    ∀ b ∈ R_BuildLightMap witLMSurf (fun _ => 1024) false false [],
      b ≤ 255) ∧
    R_BuildLightMap witLMSurf (fun _ => 1024) false false [] =
      [0, 0, 0, 0] :=
  ⟨buildLightMap_saturates witLMSurf (fun _ => 1024) false false []
    (by decide) (by decide) (by decide), by decide⟩



-- ============================================================================
-- part_004: AllocBlock (lightmap atlas allocator)
-- ============================================================================

/-- BLOCK_WIDTH = 128 (atlas page width in texels). -/
def BLOCK_WIDTH : ℕ := 128

/-- BLOCK_HEIGHT = 128 (atlas page height in texels). -/
def BLOCK_HEIGHT : ℕ := 128

/-- MAX_LIGHTMAPS = 64 (number of atlas pages). -/
def MAX_LIGHTMAPS : ℕ := 64

/-- The inner j-scan of AllocBlock at candidate column i: walk the w columns
of the skyline, failing (none, the source's break before j reaches w) when a
column height reaches the current best, otherwise returning the maximum
height best2 over the window. -/
def scanJ (page : List ℕ) (best : ℕ) : ℕ → ℕ → ℕ → Option ℕ
  | _, 0, best2 => some best2
  | idx, n + 1, best2 =>
    let a := page.getD idx 0
    if best ≤ a then none
    else scanJ page best (idx + 1) n (if best2 < a then a else best2)

/-- The candidate loop of AllocBlock over one page: try every i below
BLOCK_WIDTH - w, and whenever the j-scan accepts, record outX = i and
outY = best = best2 (the state carries (best, outX, outY); outX/outY
persist across failed candidates and across pages, as the source's shared
ref cells do). -/
def scanPage (page : List ℕ) (w : ℕ) (init : ℕ × ℕ × ℕ) : ℕ × ℕ × ℕ :=
  (List.range (BLOCK_WIDTH - w)).foldl (fun acc i =>
    match scanJ page acc.1 i w 0 with
    | some best2 => (best2, i, best2)
    | none => acc) init

/-- Raise the w skyline columns starting at x to the new height. -/
def raiseColumns (page : List ℕ) (x w val : ℕ) : List ℕ :=
  page.mapIdx (fun i v => if x ≤ i ∧ i < x + w then val else v)

/-- The page loop of AllocBlock: scan each page in turn; a page whose best
spot cannot accommodate h more rows is skipped, the first fitting page is
updated and its index returned, and exhausting all pages is the fatal
`Sys_Error('AllocBlock: full')`, embedded as an error value. -/
def allocBlockLoop (w h : ℕ) :
    ℕ → List (List ℕ) → ℕ → ℕ → Except String (ℕ × ℕ × ℕ × List (List ℕ))
  | _, [], _, _ => Except.error "AllocBlock: full"
  | texnum, page :: rest, outX, outY =>
    let scan := scanPage page w (BLOCK_HEIGHT, outX, outY)
    let best := scan.1
    if BLOCK_HEIGHT < best + h then
      match allocBlockLoop w h (texnum + 1) rest scan.2.1 scan.2.2 with
      | Except.ok (t, x, y, pages) => Except.ok (t, x, y, page :: pages)
      | Except.error e => Except.error e
    else
      Except.ok (texnum, scan.2.1, scan.2.2,
        raiseColumns page scan.2.1 w (best + h) :: rest)

/-- AllocBlock: find a texture page and position for a w × h lightmap,
returning (texnum, x, y, updated skylines) or the fatal
'AllocBlock: full' error. -/
def AllocBlock (w h : ℕ) (allocated : List (List ℕ)) :
    Except String (ℕ × ℕ × ℕ × List (List ℕ)) :=
  allocBlockLoop w h 0 allocated 0 0

theorem scanJ_none_of_full (page : List ℕ) (w idx : ℕ) (hw : 1 ≤ w)
    (hidx : idx < page.length)
    (hfull : ∀ c ∈ page, BLOCK_HEIGHT ≤ c) :
    ∀ best2, scanJ page BLOCK_HEIGHT idx w best2 = none := by
  intro best2
  cases w with
  | zero => omega
  | succ n =>
    rw [scanJ]
    have hmem : page.getD idx 0 ∈ page := by
      rw [List.getD_eq_getElem?_getD, List.getElem?_eq_getElem hidx]
      exact List.getElem_mem hidx
    have hge := hfull _ hmem
    split
    · rfl
    · omega

theorem foldl_scanJ_id (page : List ℕ) (w : ℕ) :
    ∀ (l : List ℕ) (init : ℕ × ℕ × ℕ),
      (∀ i ∈ l, scanJ page init.1 i w 0 = none) →
      l.foldl (fun acc i =>
        match scanJ page acc.1 i w 0 with
        | some best2 => (best2, i, best2)
        | none => acc) init = init
  | [], _, _ => rfl
  | j :: l, init, h => by
      rw [List.foldl_cons, h j (List.mem_cons_self j l)]
      exact foldl_scanJ_id page w l init
        (fun i hi => h i (List.mem_cons_of_mem j hi))

theorem scanPage_full (page : List ℕ) (w : ℕ) (hw : 1 ≤ w)
    (hlen : page.length = BLOCK_WIDTH)
    (hfull : ∀ c ∈ page, BLOCK_HEIGHT ≤ c) (outX outY : ℕ) :
    scanPage page w (BLOCK_HEIGHT, outX, outY) = (BLOCK_HEIGHT, outX, outY) := by
  unfold scanPage
  apply foldl_scanJ_id
  intro i hi
  have := List.mem_range.mp hi
  exact scanJ_none_of_full page w i hw
    (by rw [hlen]; simp only [BLOCK_WIDTH] at this ⊢; omega) hfull 0

/-- C8 (amended): when no page can accommodate the surface — here, every
skyline column of every page already at BLOCK_HEIGHT — AllocBlock is fatal:
it raises Sys_Error with the fixed diagnostic string 'AllocBlock: full',
aborting map load.  The diagnostic is a constant and does not identify the
offending surface. -/
theorem allocBlock_exhaustion_fatal (w h : ℕ) (hw : 1 ≤ w) (hh : 1 ≤ h)
    (allocated : List (List ℕ))
    (hlen : ∀ page ∈ allocated, page.length = BLOCK_WIDTH)
    (hfull : ∀ page ∈ allocated, ∀ c ∈ page, BLOCK_HEIGHT ≤ c) :
    AllocBlock w h allocated = Except.error "AllocBlock: full" := by
  unfold AllocBlock
  suffices hgen : ∀ (pages : List (List ℕ)) (texnum outX outY : ℕ),
      (∀ page ∈ pages, page.length = BLOCK_WIDTH) →
      (∀ page ∈ pages, ∀ c ∈ page, BLOCK_HEIGHT ≤ c) →
      allocBlockLoop w h texnum pages outX outY =
        Except.error "AllocBlock: full" by
    exact hgen allocated 0 0 0 hlen hfull
  intro pages
  induction pages with
  | nil => intro _ _ _ _ _; rfl
  | cons page rest ih =>
    intro texnum outX outY hlen' hfull'
    rw [allocBlockLoop]
    rw [scanPage_full page w hw (hlen' page (List.mem_cons_self page rest))
      (hfull' page (List.mem_cons_self page rest)) outX outY]
    rw [if_pos (by omega)]
    rw [ih texnum.succ outX outY
      (fun p hp => hlen' p (List.mem_cons_of_mem page hp))
      (fun p hp => hfull' p (List.mem_cons_of_mem page hp))]

/-- The fully-exhausted atlas (every column of every page at full height). -/
def fullAllocated : List (List ℕ) :=
  List.replicate MAX_LIGHTMAPS (List.replicate BLOCK_WIDTH BLOCK_HEIGHT)

/-- C8 (counterexample to "identifying the offending surface"): two
different offending surface extents produce the identical constant
diagnostic 'AllocBlock: full' — the abort message contains nothing that
identifies the surface. -/
theorem allocBlock_diagnostic_not_identifying :
    AllocBlock 5 5 fullAllocated = Except.error "AllocBlock: full" ∧
    AllocBlock 7 3 fullAllocated = Except.error "AllocBlock: full" ∧
    (5, 5) ≠ ((7 : ℕ), (3 : ℕ)) := by
  have hlen : ∀ page ∈ fullAllocated, page.length = BLOCK_WIDTH := by
    intro p hp
    simp [List.eq_of_mem_replicate hp]
  have hfull : ∀ page ∈ fullAllocated, ∀ c ∈ page, BLOCK_HEIGHT ≤ c := by
    intro p hp c hc
    rw [List.eq_of_mem_replicate hp] at hc
    rw [List.eq_of_mem_replicate hc]
  exact ⟨allocBlock_exhaustion_fatal 5 5 (by norm_num) (by norm_num)
      fullAllocated hlen hfull,
    allocBlock_exhaustion_fatal 7 3 (by norm_num) (by norm_num)
      fullAllocated hlen hfull, by decide⟩

theorem allocBlock_exhaustion_fatal_witness :
    AllocBlock 1 1 fullAllocated = Except.error "AllocBlock: full" :=
  allocBlock_exhaustion_fatal 1 1 (by norm_num) (by norm_num) fullAllocated
    (by intro p hp; simp [List.eq_of_mem_replicate hp])
    (by intro p hp c hc
        rw [List.eq_of_mem_replicate hp] at hc
        rw [List.eq_of_mem_replicate hc])



-- ============================================================================
-- gl_lightprobe.js: R_BuildLightProbes
-- ============================================================================

/-- A light probe: owning leaf index, anchor position, combined SH, base
(style-0) SH and the sparse per-style contributions. -/
structure LightProbe where
  leafIndex : ℕ
  position : Vec3
  sh : SH12
  shBase : SH12
  styleContribs : List (ℕ × SH12)

/-- JS `x % 1` for the nonnegative Halton-like sequence values. -/
def jsMod1 (q : ℚ) : ℚ := q - ⌊q⌋

/-- The centroid of a leaf bounding box. -/
def leafCentroid (mins maxs : Vec3) : Vec3 :=
  ( (mins.1 + maxs.1) * (1/2),
    (mins.2.1 + maxs.2.1) * (1/2),
    (mins.2.2 + maxs.2.2) * (1/2) )

/-- The sample positions of a probe: the centroid alone for one sample,
otherwise the centroid plus Halton-like jittered positions inside the leaf
bounds shrunk by 0.2 per side. -/
def samplePositionsFor (mins maxs : Vec3) (numSamples : ℕ) : List Vec3 :=
  let centroid := leafCentroid mins maxs
  if numSamples = 1 then [centroid]
  else
    let shrink : ℚ := 2/10
    let sizeX := (maxs.1 - mins.1) * (1 - shrink * 2)
    let sizeY := (maxs.2.1 - mins.2.1) * (1 - shrink * 2)
    let sizeZ := (maxs.2.2 - mins.2.2) * (1 - shrink * 2)
    let baseX := mins.1 + (maxs.1 - mins.1) * shrink
    let baseY := mins.2.1 + (maxs.2.1 - mins.2.1) * shrink
    let baseZ := mins.2.2 + (maxs.2.2 - mins.2.2) * shrink
    centroid :: (List.range (numSamples - 1)).map (fun k =>
      let s : ℚ := ((k + 1 : ℕ) : ℚ)
      ( baseX + jsMod1 (s * (618034/1000000)) * sizeX,
        baseY + jsMod1 (s * (773064/1000000)) * sizeY,
        baseZ + jsMod1 (s * (437585/1000000)) * sizeZ ))

/-- The used-lightstyle collection pass of R_BuildLightProbes: a Set seeded
with style 0, then every style slot of every surface with samples, in
insertion order. -/
def collectUsedStyles (surfaces : List (Option Surf)) (numsurfaces : ℕ) : List ℕ :=
  (surfaces.take numsurfaces).foldl (fun acc surfOpt =>
    match surfOpt with
    | none => acc
    | some surf =>
      if surf.samples = none then acc
      else (activeStyles surf).foldl
        (fun acc st => if st ∈ acc then acc else acc ++ [st]) acc) [0]

/-- The per-leaf body of the R_BuildLightProbes loop: skip null and
non-empty leaves; otherwise bake the probe (combined SH at current style
values, sparse per-style contributions, and the style-0 base SH) at the
leaf's sample positions, append it and enter it in the leaf lookup. -/
def buildProbesStep (model : QModel) (styleVals : ℕ → ℤ)
    (stylesArray : List ℕ) (rayDirs : List Vec3) (numSamples : ℕ)
    (acc : List LightProbe × (ℕ → Option LightProbe)) (i0 : ℕ) :
    List LightProbe × (ℕ → Option LightProbe) :=
  let i := i0 + 1
  match model.leafs i with
  | none => acc
  | some leaf =>
    if leaf.contents ≠ CONTENTS_EMPTY then acc
    else
      let samplePositions := samplePositionsFor leaf.mins leaf.maxs numSamples
      let probe : LightProbe :=
        { leafIndex := i,
          position := leafCentroid leaf.mins leaf.maxs,
          sh := BakeProbeMultiSample model styleVals rayDirs samplePositions,
          shBase := BakeProbeForStyleMultiSample model 0 rayDirs samplePositions,
          styleContribs := buildStyleContribs model rayDirs samplePositions
            stylesArray }
      (acc.1 ++ [probe], fun j => if j = i then some probe else acc.2 j)

/-- R_BuildLightProbes: none when there is no world model light data;
otherwise the probe list and the leafIndex → probe lookup built by one pass
over the 1-based leaves, creating probes only for leaves with contents
CONTENTS_EMPTY. -/
def R_BuildLightProbes (model : QModel) (styleVals : ℕ → ℤ)
    (quality samplesParam : ℤ) :
    Option (List LightProbe × (ℕ → Option LightProbe)) :=
  if ¬ model.haslightdata then none
  else
    let stylesArray := (collectUsedStyles model.surfaces model.numsurfaces).filter
      (fun s => s ≠ 0)
    let rayDirs := GetRayDirections quality
    let numSamples := (max 1 (min 8 samplesParam)).toNat
    some ((List.range model.numleafs).foldl
      (buildProbesStep model styleVals stylesArray rayDirs numSamples)
      ([], fun _ => none))


/-- The loop invariant of the R_BuildLightProbes leaf pass after the
1-based leaves 1..n have been processed: every built probe's owning leaf
exists and is empty, and every existing empty leaf among 1..n owns exactly
one probe, reachable through the lookup. -/
def ProbesInv (model : QModel) (n : ℕ)
    (acc : List LightProbe × (ℕ → Option LightProbe)) : Prop :=
  (∀ p ∈ acc.1, 1 ≤ p.leafIndex ∧ p.leafIndex ≤ n ∧
    ∃ leaf, model.leafs p.leafIndex = some leaf ∧
      leaf.contents = CONTENTS_EMPTY) ∧
  (∀ i, 1 ≤ i → i ≤ n → ∀ leaf, model.leafs i = some leaf →
    leaf.contents = CONTENTS_EMPTY →
    acc.1.countP (fun p => p.leafIndex == i) = 1 ∧
    ∃ p, acc.2 i = some p ∧ p ∈ acc.1 ∧ p.leafIndex = i)

theorem buildProbesStep_none (model : QModel) (styleVals : ℕ → ℤ)
    (stylesArray : List ℕ) (rayDirs : List Vec3) (numSamples : ℕ)
    (acc : List LightProbe × (ℕ → Option LightProbe)) (i0 : ℕ)
    (hleaf : model.leafs (i0 + 1) = none) :
    buildProbesStep model styleVals stylesArray rayDirs numSamples acc i0 = acc := by
  unfold buildProbesStep
  simp only [hleaf]

theorem buildProbesStep_nonempty (model : QModel) (styleVals : ℕ → ℤ)
    (stylesArray : List ℕ) (rayDirs : List Vec3) (numSamples : ℕ)
    (acc : List LightProbe × (ℕ → Option LightProbe)) (i0 : ℕ)
    (leaf : LeafData) (hleaf : model.leafs (i0 + 1) = some leaf)
    (hct : leaf.contents ≠ CONTENTS_EMPTY) :
    buildProbesStep model styleVals stylesArray rayDirs numSamples acc i0 = acc := by
  unfold buildProbesStep
  simp only [hleaf]
  exact if_pos hct

theorem buildProbesStep_empty (model : QModel) (styleVals : ℕ → ℤ)
    (stylesArray : List ℕ) (rayDirs : List Vec3) (numSamples : ℕ)
    (acc : List LightProbe × (ℕ → Option LightProbe)) (i0 : ℕ)
    (leaf : LeafData) (hleaf : model.leafs (i0 + 1) = some leaf)
    (hct : leaf.contents = CONTENTS_EMPTY) :
    ∃ probe : LightProbe, probe.leafIndex = i0 + 1 ∧
      buildProbesStep model styleVals stylesArray rayDirs numSamples acc i0 =
        (acc.1 ++ [probe], fun j => if j = i0 + 1 then some probe else acc.2 j) := by
  let probe : LightProbe :=
    { leafIndex := i0 + 1
      position := leafCentroid leaf.mins leaf.maxs
      sh := BakeProbeMultiSample model styleVals rayDirs
        (samplePositionsFor leaf.mins leaf.maxs numSamples)
      shBase := BakeProbeForStyleMultiSample model 0 rayDirs
        (samplePositionsFor leaf.mins leaf.maxs numSamples)
      styleContribs := buildStyleContribs model rayDirs
        (samplePositionsFor leaf.mins leaf.maxs numSamples) stylesArray }
  refine ⟨probe, rfl, ?_⟩
  unfold buildProbesStep
  simp only [hleaf]
  rw [if_neg (by simp [hct])]

theorem buildProbesLoop_inv (model : QModel) (styleVals : ℕ → ℤ)
    (stylesArray : List ℕ) (rayDirs : List Vec3) (numSamples : ℕ) :
    ∀ n, ProbesInv model n ((List.range n).foldl
      (buildProbesStep model styleVals stylesArray rayDirs numSamples)
      ([], fun _ => none))
  | 0 => by
      constructor
      · intro p hp
        simp at hp
      · intro i h1 h2
        omega
  | n + 1 => by
      obtain ⟨ih1, ih2⟩ := buildProbesLoop_inv model styleVals stylesArray
        rayDirs numSamples n
      rw [List.range_succ, List.foldl_append, List.foldl_cons, List.foldl_nil]
      set accN := (List.range n).foldl
        (buildProbesStep model styleVals stylesArray rayDirs numSamples)
        ([], fun _ => none) with haccN
      cases hleaf : model.leafs (n + 1) with
      | none =>
        rw [buildProbesStep_none model styleVals stylesArray rayDirs
          numSamples accN n hleaf]
        constructor
        · intro p hp
          obtain ⟨ha, hb, hc⟩ := ih1 p hp
          exact ⟨ha, by omega, hc⟩
        · intro i h1 h2 leaf hlf hct
          rcases Nat.lt_or_ge i (n + 1) with hlt | hge
          · exact ih2 i h1 (by omega) leaf hlf hct
          · have heq : i = n + 1 := by omega
            subst heq
            rw [hleaf] at hlf
            exact absurd hlf (by simp)
      | some leaf0 =>
        by_cases hct0 : leaf0.contents ≠ CONTENTS_EMPTY
        · rw [buildProbesStep_nonempty model styleVals stylesArray rayDirs
            numSamples accN n leaf0 hleaf hct0]
          constructor
          · intro p hp
            obtain ⟨ha, hb, hc⟩ := ih1 p hp
            exact ⟨ha, by omega, hc⟩
          · intro i h1 h2 leaf hlf hct
            rcases Nat.lt_or_ge i (n + 1) with hlt | hge
            · exact ih2 i h1 (by omega) leaf hlf hct
            · have heq : i = n + 1 := by omega
              subst heq
              rw [hleaf] at hlf
              have heq2 : leaf = leaf0 := by injection hlf.symm
              subst heq2
              exact absurd hct (by simpa using hct0)
        · push_neg at hct0
          obtain ⟨probe, hpidx, hstep⟩ := buildProbesStep_empty model styleVals
            stylesArray rayDirs numSamples accN n leaf0 hleaf hct0
          rw [hstep]
          constructor
          · intro p hp
            rcases List.mem_append.mp hp with hmem | hnew
            · obtain ⟨ha, hb, hc⟩ := ih1 p hmem
              exact ⟨ha, by omega, hc⟩
            · have heq : p = probe := List.mem_singleton.mp hnew
              subst heq
              rw [hpidx]
              exact ⟨by omega, by omega, leaf0, hleaf, hct0⟩
          · intro i h1 h2 leaf hlf hct
            rcases Nat.lt_or_ge i (n + 1) with hlt | hge
            · obtain ⟨hcnt, p, hl2p, hpmem, hpidx2⟩ :=
                ih2 i h1 (by omega) leaf hlf hct
              refine ⟨?_, p, ?_, List.mem_append_left _ hpmem, hpidx2⟩
              · rw [List.countP_append, hcnt]
                have hne : (probe.leafIndex == i) = false := by
                  rw [hpidx]
                  simp
                  omega
                simp [List.countP_singleton, hne]
              · show (if i = n + 1 then some probe else accN.2 i) = some p
                rw [if_neg (by omega)]
                exact hl2p
            · have heq : i = n + 1 := by omega
              subst heq
              have hcnt0 : accN.1.countP (fun p => p.leafIndex == n + 1) = 0 := by
                rw [List.countP_eq_zero]
                intro p hp
                obtain ⟨_, hb, _⟩ := ih1 p hp
                simp
                omega
              refine ⟨?_, probe, ?_,
                List.mem_append_right _ (List.mem_singleton_self _), hpidx⟩
              · rw [List.countP_append, hcnt0]
                simp [List.countP_singleton, hpidx]
              · show (if n + 1 = n + 1 then some probe else accN.2 (n + 1)) =
                  some probe
                rw [if_pos rfl]

/-- C5: after R_BuildLightProbes runs on a model with light data, every
probe's owning leaf exists and has contents CONTENTS_EMPTY (no probe for a
solid or liquid leaf), and every existing empty leaf owns exactly one probe,
reachable through the leaf-to-probe lookup. -/
theorem buildLightProbes_exclusive (model : QModel) (styleVals : ℕ → ℤ)
    (quality samplesParam : ℤ) (probes : List LightProbe)
    (l2p : ℕ → Option LightProbe)
    (hsome : R_BuildLightProbes model styleVals quality samplesParam =
      some (probes, l2p)) :
    (∀ p ∈ probes, ∃ leaf, model.leafs p.leafIndex = some leaf ∧
      leaf.contents = CONTENTS_EMPTY) ∧
    (∀ i, 1 ≤ i → i ≤ model.numleafs → ∀ leaf, model.leafs i = some leaf →
      leaf.contents = CONTENTS_EMPTY →
      probes.countP (fun p => p.leafIndex == i) = 1 ∧
      ∃ p, l2p i = some p ∧ p ∈ probes ∧ p.leafIndex = i) := by
  unfold R_BuildLightProbes at hsome
  by_cases hld : model.haslightdata
  · rw [if_neg (by simpa using hld)] at hsome
    have hpair := Option.some.inj hsome
    obtain ⟨inv1, inv2⟩ := buildProbesLoop_inv model styleVals
      ((collectUsedStyles model.surfaces model.numsurfaces).filter (fun s => s ≠ 0))
      (GetRayDirections quality) (max 1 (min 8 samplesParam)).toNat
      model.numleafs
    rw [hpair] at inv1 inv2
    exact ⟨fun p hp => (inv1 p hp).2.2, inv2⟩
  · rw [if_pos (by simpa using hld)] at hsome
    exact absurd hsome (by simp)


/-- A two-leaf model (leaf 1 empty, leaf 2 solid) with light data, used to
instantiate the probe-leaf exclusivity theorem at a concrete input. -/
def witProbeModel : QModel :=
  { haslightdata := true,
    root := .leaf (-2),
    surfaces := [], numsurfaces := 0,
    numleafs := 2,
    leafs := fun i =>
      if i = 1 then some { contents := -1, mins := (0,0,0), maxs := (64,64,64) }
      else if i = 2 then
        some { contents := -2, mins := (64,0,0), maxs := (128,64,64) }
      else none }

/-- The probe list and leaf lookup R_BuildLightProbes produces on the
witness model. -/
def witProbePair : List LightProbe × (ℕ → Option LightProbe) :=
  (R_BuildLightProbes witProbeModel (fun _ => 256) 0 1).getD ([], fun _ => none)

theorem buildLightProbes_exclusive_witness :
    witProbePair.1.countP (fun p => p.leafIndex == 1) = 1 ∧
    (∀ p ∈ witProbePair.1, ∃ leaf, witProbeModel.leafs p.leafIndex = some leaf ∧
      leaf.contents = CONTENTS_EMPTY) := by
  have h := buildLightProbes_exclusive witProbeModel (fun _ => 256) 0 1
    witProbePair.1 witProbePair.2 rfl
  refine ⟨(h.2 1 (by norm_num) (by norm_num [witProbeModel])
    { contents := -1, mins := (0,0,0), maxs := (64,64,64) } rfl rfl).1, h.1⟩


end ThreeQuake
